import Mathlib

/-!
# Public dashboards: token resolution, query extraction, scoped identity

A shallow embedding of `pkg/services/dashboards/service/dashboard_public.go` and of
`pkg/plugins/manager/store/store.go`.

* Go pointers that may be nil are `Option`s, Go multi-value returns are tuples whose last
  component is the `error` (`none` is the nil error).
* Go maps are association lists with unique keys (`GoMap`): `assign` is `m[k] = v`,
  `lookup` is the comma-ok read `v, ok := m[k]`.
* `int64` identifiers (`OrgId`, `panelId`, `UserId`) are `Int`; no arithmetic is done on them.
* The dashboard store is an interface: its methods are fields of `DashboardStore`.
* The save operations return, next to their result, the list of the calls they made to the
  store and to the random source; the clock and the random source are read from a `World`.
-/

namespace Grafana

/-! ## Go maps -/

/-- A Go map as an association list; the operations below keep keys unique. -/
abbrev GoMap (K V : Type) := List (K × V)

namespace GoMap

variable {K V : Type} [DecidableEq K]

/-- The map created by `make(map[K]V)`. -/
def empty : GoMap K V := []

/-- The comma-ok read `v, ok := m[k]`: `none` when `k` is not a key. -/
def lookup : GoMap K V → K → Option V
  | [], _ => none
  | (k2, v) :: rest, k => if k2 = k then some v else lookup rest k

/-- The write `m[k] = v`: replaces the value of an existing key, else adds the key. -/
def assign : GoMap K V → K → V → GoMap K V
  | [], k, v => [(k, v)]
  | (k2, v2) :: rest, k, v => if k2 = k then (k, v) :: rest else (k2, v2) :: assign rest k v

/-- The keys of the map. -/
def keys (m : GoMap K V) : List K := m.map Prod.fst

end GoMap

/-! ## simplejson -/

/-- Modelled from the spec: `simplejson.Json` (package `pkg/components/simplejson`) is not
under src/. The spec treats the dashboard document and each query as loosely structured
documents in which a query names one datasource; a document is null, a boolean, a number, a
string, an array or an object with string keys. -/
inductive Json where
  | null : Json
  | bool (b : Bool) : Json
  | num (n : Int) : Json
  | str (s : String) : Json
  | arr (xs : List Json) : Json
  | obj (kvs : List (String × Json)) : Json

namespace Json

/-- Modelled from the spec: `(*Json).Get(key)`, not under src/. The value stored under `key`
when the document is an object that has the key, and the null document otherwise. -/
def Get (j : Json) (key : String) : Json :=
  match j with
  | obj kvs =>
    match GoMap.lookup kvs key with
    | some v => v
    | none => null
  | _ => null

/-- Modelled from the spec: `(*Json).MustString()`, not under src/. The string held by the
document, and the empty string when the document is not a string. -/
def MustString (j : Json) : String :=
  match j with
  | str s => s
  | _ => ""

/-- Modelled from the spec: `(*Json).MustArray()`, not under src/. The elements of an array
document, and no element when the document is not an array. -/
def MustArray (j : Json) : List Json :=
  match j with
  | arr xs => xs
  | _ => []

/-- Modelled from the spec: `(*Json).MustInt64()`, not under src/. The number held by the
document, and zero when the document is not a number. -/
def MustInt64 (j : Json) : Int :=
  match j with
  | num n => n
  | _ => 0

/-- Modelled from the spec: `(*Json).GetPath(branch...)`, not under src/: `Get` along a path. -/
def GetPath (j : Json) (branch : List String) : Json :=
  branch.foldl Get j

/-- The object held by a document, or a fresh empty object when it holds something else. -/
def asMap (j : Json) : GoMap String Json :=
  match j with
  | obj kvs => kvs
  | _ => GoMap.empty

/-- Modelled from the spec: `(*Json).SetPath(branch, val)`, not under src/. Stores `val` at the
path, replacing by an object every document on the way that is not one; all other keys of the
objects on the way are kept. -/
def SetPath : Json → List String → Json → Json
  | _, [], val => val
  | j, [k], val => obj (GoMap.assign j.asMap k val)
  | j, k :: b :: rest, val =>
    let child : Json :=
      match GoMap.lookup j.asMap k with
      | some c => c
      | none => obj GoMap.empty
    obj (GoMap.assign j.asMap k (SetPath child (b :: rest) val))

end Json

/-! ## Data model (package `models`, `dtos`, `dashboards`) -/

/-- The sentinel errors of package `models` this file returns, and any other error value (a
storage failure, a failure of the random source). -/
inductive Error where
  | ErrPublicDashboardNotFound : Error
  | ErrPublicDashboardPanelNotFound : Error
  | ErrDashboardIdentifierNotSet : Error
  | other (msg : String) : Error
  deriving DecidableEq, Repr

/-- An effective time window `(From, To)`. -/
structure TimeSettings where
  From : String
  To : String
  deriving DecidableEq, Repr

/-- Modelled from the spec: `models.PublicDashboard` is declared outside src/. The fields are the
ones `dashboard_public.go` reads and writes; `TimeSettings` is the optional override of the spec
(section 3), timestamps are instants counted as naturals. -/
structure PublicDashboard where
  Uid : String
  DashboardUid : String
  OrgId : Int
  TimeSettings : Option TimeSettings
  IsEnabled : Bool
  AccessToken : String
  CreatedBy : Int
  UpdatedBy : Int
  CreatedAt : Nat
  UpdatedAt : Nat
  deriving DecidableEq, Repr

/-- The part of `models.Dashboard` this file uses: the owning organization and the document. -/
structure Dashboard where
  OrgId : Int
  Data : Json

/-- The part of `dtos.MetricRequest` this file fills in. -/
structure MetricRequest where
  From : String
  To : String
  Queries : List Json

/-- The zero value `dtos.MetricRequest{}` (also the value of `var metricRequest`). -/
def MetricRequest.zero : MetricRequest :=
  { From := "", To := "", Queries := [] }

/-- The part of `models.SignedInUser` this file fills in; every other field stays zero. -/
structure SignedInUser where
  OrgId : Int
  Permissions : GoMap Int (GoMap String (List String))
  deriving DecidableEq, Repr

/-- The command `models.SavePublicDashboardConfigCommand`. -/
structure SavePublicDashboardConfigCommand where
  DashboardUid : String
  OrgId : Int
  PublicDashboard : PublicDashboard
  deriving DecidableEq, Repr

/-- The methods of the dashboard store this file calls. -/
structure DashboardStore where
  GetPublicDashboard : String → Option PublicDashboard × Option Dashboard × Option Error
  GetPublicDashboardConfig : Int → String → Option PublicDashboard × Option Error
  GenerateNewPublicDashboardUid : String × Option Error
  SavePublicDashboardConfig : SavePublicDashboardConfigCommand → Option PublicDashboard × Option Error
  UpdatePublicDashboardConfig : SavePublicDashboardConfigCommand → Option PublicDashboard × Option Error

/-- The service: the source reads only its `dashboardStore`. -/
structure DashboardServiceImpl where
  dashboardStore : DashboardStore

/-- Modelled from the spec: the constant `datasources.ActionQuery` is declared outside src/; the
spec calls it the "query" action. -/
def ActionQuery : String := "datasources:query"

/-- Modelled from the spec: the constant `datasources.ActionRead` is declared outside src/; the
spec calls it the "read" action. -/
def ActionRead : String := "datasources:read"

/-- Modelled from the spec: `PublicDashboard.BuildTimeSettings` (package `models`) is not under
src/. Spec 4.3: if `config.timeSettings` specifies an override it takes precedence, otherwise
the window falls back to the dashboard's own declared time defaults. The defaults are read from
the document at `time.from` and `time.to`, the two paths `GetPublicDashboard` writes the window
back to. -/
def PublicDashboard.BuildTimeSettings (pd : PublicDashboard) (d : Dashboard) :
    Grafana.TimeSettings :=
  match pd.TimeSettings with
  | some ts => ts
  | none =>
    { From := (d.Data.GetPath ["time", "from"]).MustString,
      To := (d.Data.GetPath ["time", "to"]).MustString }

/-! ## Go library functions -/

/-- Go `strings.Join(elems, sep)`. -/
def stringsJoin : List String → String → String
  | [], _ => ""
  | [a], _ => a
  | a :: b :: rest, sep => a ++ sep ++ stringsJoin (b :: rest) sep

/-! ## The operations of `dashboard_public.go` -/

/-- `GetPublicDashboard`: gets the public dashboard via access token. -/
def DashboardServiceImpl.GetPublicDashboard (dr : DashboardServiceImpl) (accessToken : String) :
    Option Dashboard × Option Error :=
  match dr.dashboardStore.GetPublicDashboard accessToken with
  | (pubdash, d, err) =>
    match err with
    | some e => (none, some e)
    | none =>
      match pubdash, d with
      | some pubdash, some d =>
        if !pubdash.IsEnabled then
          (none, some Error.ErrPublicDashboardNotFound)
        else
          let ts := pubdash.BuildTimeSettings d
          let data := d.Data.SetPath ["time", "from"] (Json.str ts.From)
          let data := data.SetPath ["time", "to"] (Json.str ts.To)
          (some { d with Data := data }, none)
      | _, _ => (none, some Error.ErrPublicDashboardNotFound)

/-- The datasource uid a query names: `query.Get("datasource").Get("uid").MustString()`. -/
def datasourceUid (query : Json) : String :=
  ((query.Get "datasource").Get "uid").MustString

/-- The loop of `BuildPublicDashboardMetricRequest` that collects one datasource uid per
query, in query order: `uids = append(uids, query.Get(...).Get(...).MustString())`. -/
def collectUids (queries : List Json) : List String :=
  queries.foldl (fun uids query => uids ++ [datasourceUid query]) []

/-- The scope string `fmt.Sprintf("datasources:uid:%s", strings.Join(uids, ","))`. -/
def datasourceScope (uids : List String) : String :=
  "datasources:uid:" ++ stringsJoin uids ","

/-- `BuildPublicDashboardMetricRequest`: merges public dashboard parameters with the dashboard
and returns a metric request and the anonymous user allowed to run it.
`GetQueriesFromDashboard` (package `models`, outside src/) is a parameter: the index from
panel id to the panel's queries. -/
def DashboardServiceImpl.BuildPublicDashboardMetricRequest
    (GetQueriesFromDashboard : Json → GoMap Int (List Json))
    (dr : DashboardServiceImpl) (accessToken : String) (panelId : Int) :
    MetricRequest × Option SignedInUser × Option Error :=
  let metricRequest : MetricRequest := MetricRequest.zero
  let anonymousUser : Option SignedInUser := none
  match dr.dashboardStore.GetPublicDashboard accessToken with
  | (publicDashboard, dashboard, err) =>
    match err with
    | some e => (metricRequest, anonymousUser, some e)
    | none =>
      match publicDashboard, dashboard with
      | some publicDashboard, some dashboard =>
        if !publicDashboard.IsEnabled then
          (metricRequest, anonymousUser, some Error.ErrPublicDashboardNotFound)
        else
          let queriesByPanel := GetQueriesFromDashboard dashboard.Data
          match GoMap.lookup queriesByPanel panelId with
          | none => (MetricRequest.zero, anonymousUser, some Error.ErrPublicDashboardPanelNotFound)
          | some queries =>
            let metricRequest := { metricRequest with Queries := queries }
            let ts := publicDashboard.BuildTimeSettings dashboard
            let metricRequest := { metricRequest with From := ts.From }
            let metricRequest := { metricRequest with To := ts.To }
            let uids := collectUids metricRequest.Queries
            let anonymousUser : SignedInUser :=
              { OrgId := dashboard.OrgId, Permissions := GoMap.empty }
            let permissions : GoMap String (List String) := GoMap.empty
            let datasourceScope := datasourceScope uids
            let permissions := GoMap.assign permissions ActionQuery [datasourceScope]
            let permissions := GoMap.assign permissions ActionRead [datasourceScope]
            let anonymousUser :=
              { anonymousUser with
                Permissions := GoMap.assign anonymousUser.Permissions dashboard.OrgId permissions }
            (metricRequest, some anonymousUser, none)
      | _, _ => (metricRequest, anonymousUser, some Error.ErrPublicDashboardNotFound)

/-! ## Reading a synthesized identity

The claims speak of "the identifiers enumerated in the scope string" and of "the actions granted
under an organization". These are the readings used to state them. -/

/-- Splits a character list at every comma (the pieces of a comma-separated list). -/
def splitOnComma : List Char → List (List Char)
  | [] => [[]]
  | c :: cs =>
    if c = ',' then
      [] :: splitOnComma cs
    else
      match splitOnComma cs with
      | [] => [[c]]
      | piece :: pieces => (c :: piece) :: pieces

/-- The identifiers a scope string enumerates: the comma-separated list that follows the
16 characters of `datasources:uid:`. Nothing after the colon enumerates no identifier. -/
def scopeIdentifiers (scope : String) : List String :=
  let rest := scope.data.drop 16
  if rest = [] then [] else (splitOnComma rest).map String.mk

/-- Every scope string the identity holds, over all organizations and actions. -/
def grantedScopes (u : SignedInUser) : List String :=
  (u.Permissions.map (fun org => (org.2.map (fun act => act.2)).flatten)).flatten

/-- The actions granted to the identity under one organization. -/
def grantedActions (u : SignedInUser) (orgId : Int) : List String :=
  match GoMap.lookup u.Permissions orgId with
  | none => []
  | some perms => GoMap.keys perms

/-- A query names a datasource usable in a comma-separated scope: its uid is not empty
and holds no comma. -/
def namesDatasource (query : Json) : Prop :=
  datasourceUid query ≠ "" ∧ ',' ∉ (datasourceUid query).data

/-! ## Sample documents

A concrete index and concrete store contents, used to evaluate the operations. -/

/-- An index in the shape the dashboard document has: every element of `panels` is indexed by
its `id` and lists its `targets`. -/
def samplePanelQueries (data : Json) : GoMap Int (List Json) :=
  (data.Get "panels").MustArray.foldl
    (fun m panel => GoMap.assign m (panel.Get "id").MustInt64 (panel.Get "targets").MustArray)
    GoMap.empty

/-- A query against the datasource `uid`. -/
def sampleQuery (refId uid : String) : Json :=
  Json.obj [("refId", Json.str refId),
    ("datasource", Json.obj [("type", Json.str "prometheus"), ("uid", Json.str uid)])]

/-- A dashboard of organization 1 with default window `now-1h .. now` and the given panels. -/
def sampleDashboard (panels : List (Int × List Json)) : Dashboard :=
  { OrgId := 1,
    Data := Json.obj
      [("title", Json.str "cpu"),
       ("time", Json.obj [("from", Json.str "now-1h"), ("to", Json.str "now")]),
       ("panels", Json.arr (panels.map (fun p =>
          Json.obj [("id", Json.num p.1), ("targets", Json.arr p.2)])))] }

/-- A sharing configuration for the sample dashboard. -/
def sampleConfig (enabled : Bool) (ts : Option TimeSettings) : PublicDashboard :=
  { Uid := "pd-1", DashboardUid := "dash-1", OrgId := 1, TimeSettings := ts,
    IsEnabled := enabled, AccessToken := "tok", CreatedBy := 7, UpdatedBy := 0,
    CreatedAt := 100, UpdatedAt := 0 }

/-- A service whose store answers the token `tok` with the given lookup result and has no row
for any other token. -/
def sampleService (row : Option PublicDashboard × Option Dashboard × Option Error) :
    DashboardServiceImpl :=
  { dashboardStore :=
    { GetPublicDashboard := fun token => if token = "tok" then row else (none, none, none),
      GetPublicDashboardConfig := fun _ _ => (none, none),
      GenerateNewPublicDashboardUid := ("pd-2", none),
      SavePublicDashboardConfig := fun cmd => (some cmd.PublicDashboard, none),
      UpdatePublicDashboardConfig := fun cmd => (some cmd.PublicDashboard, none) } }

/-- Scenario A of the spec: panel 7 issues two queries, against `ds-A` and `ds-B`. -/
def scenarioA : DashboardServiceImpl :=
  sampleService (some (sampleConfig true (some { From := "now-6h", To := "now" })),
    some (sampleDashboard [(7, [sampleQuery "A" "ds-A", sampleQuery "B" "ds-B"])]), none)

/-- Scenario B of the spec: the share of scenario A, disabled. -/
def scenarioB : DashboardServiceImpl :=
  sampleService (some (sampleConfig false (some { From := "now-6h", To := "now" })),
    some (sampleDashboard [(7, [sampleQuery "A" "ds-A", sampleQuery "B" "ds-B"])]), none)

/-- An enabled share without time override; panel 7 issues two queries against `ds-A`, panel 8
issues no query. -/
def scenarioShared : DashboardServiceImpl :=
  sampleService (some (sampleConfig true none),
    some (sampleDashboard [(7, [sampleQuery "A" "ds-A", sampleQuery "B" "ds-A"]), (8, [])]),
    none)

/-- A store row whose dashboard is gone. -/
def scenarioOrphan : DashboardServiceImpl :=
  sampleService (some (sampleConfig true none), none, none)

/-- A store that fails on the lookup. -/
def scenarioDown : DashboardServiceImpl :=
  sampleService (none, none, some (Error.other "database is locked"))

instance instDecidableNamesDatasource (query : Json) : Decidable (namesDatasource query) := by
  unfold namesDatasource
  infer_instance

/-! ## Saving a sharing configuration

`uuid.NewV4` and `time.Now` read the world: the random source is the stream of the results of
its successive calls, the clock is the instant it returns. Every call to the store or to the
random source is recorded, in order, next to the result of the operation. -/

/-- A value of `uuid.UUID`: sixteen bytes. -/
structure UUID where
  bytes : List (Fin 256)
  size : bytes.length = 16
  deriving DecidableEq

/-- The random source behind `uuid.NewV4()`: the result of its next call, then of the call
after it, and so on. -/
abbrev RandomSource := Nat → UUID × Option Error

/-- What an operation reads from the outside: the clock and the random source. -/
structure World where
  now : Nat
  rand : RandomSource

/-- The input `dashboards.SavePublicDashboardConfigDTO`. -/
structure SavePublicDashboardConfigDTO where
  DashboardUid : String
  OrgId : Int
  UserId : Int
  PublicDashboard : PublicDashboard
  deriving DecidableEq, Repr

/-- A call to a collaborator: the store or the random source. -/
inductive Call where
  | GenerateNewPublicDashboardUid : Call
  | NewV4 : Call
  | SavePublicDashboardConfig (cmd : SavePublicDashboardConfigCommand) : Call
  | UpdatePublicDashboardConfig (cmd : SavePublicDashboardConfigCommand) : Call
  deriving DecidableEq, Repr

/-- The lowercase hexadecimal digit of a value below sixteen. -/
def hexDigit (n : Nat) : Char :=
  if n < 10 then Char.ofNat (48 + n) else Char.ofNat (87 + n)

/-- The two lowercase hexadecimal digits of a byte, high digit first. -/
def hexByte (b : Fin 256) : List Char :=
  [hexDigit (b.val / 16), hexDigit (b.val % 16)]

/-- The text `fmt.Sprintf("%x", token)` of a `uuid.UUID`: the `x` verb of the UUID prints only
its hexadecimal digits, two per byte, in byte order. -/
def UUID.hex (token : UUID) : String :=
  String.mk (token.bytes.map hexByte).flatten

/-- `GenerateAccessToken`: generates a uuid formatted without dashes to use as access token.
Returns the token and error, and the random source left after the one call to `uuid.NewV4`. -/
def GenerateAccessToken (rand : RandomSource) : (String × Option Error) × RandomSource :=
  match rand 0 with
  | (token, err) =>
    match err with
    | some e => (("", some e), fun k => rand (k + 1))
    | none => ((token.hex, none), fun k => rand (k + 1))

/-- The create path `savePublicDashboardConfig`, with the calls it makes. -/
def DashboardServiceImpl.savePublicDashboardConfig (dr : DashboardServiceImpl) (w : World)
    (dto : SavePublicDashboardConfigDTO) :
    (Option PublicDashboard × Option Error) × List Call :=
  match dr.dashboardStore.GenerateNewPublicDashboardUid with
  | (uid, err) =>
    match err with
    | some e => ((none, some e), [Call.GenerateNewPublicDashboardUid])
    | none =>
      match (GenerateAccessToken w.rand).1 with
      | (accessToken, err) =>
        match err with
        | some e => ((none, some e), [Call.GenerateNewPublicDashboardUid, Call.NewV4])
        | none =>
          let cmd : SavePublicDashboardConfigCommand :=
            { DashboardUid := dto.DashboardUid,
              OrgId := dto.OrgId,
              PublicDashboard :=
                { Uid := uid,
                  DashboardUid := dto.DashboardUid,
                  OrgId := dto.OrgId,
                  IsEnabled := dto.PublicDashboard.IsEnabled,
                  TimeSettings := dto.PublicDashboard.TimeSettings,
                  CreatedBy := dto.UserId,
                  CreatedAt := w.now,
                  AccessToken := accessToken,
                  UpdatedBy := 0,
                  UpdatedAt := 0 } }
          (dr.dashboardStore.SavePublicDashboardConfig cmd,
            [Call.GenerateNewPublicDashboardUid, Call.NewV4,
             Call.SavePublicDashboardConfig cmd])

/-- The command `updatePublicDashboardConfig` builds: every field it does not set is zero. -/
def updateCommand (w : World) (dto : SavePublicDashboardConfigDTO) :
    SavePublicDashboardConfigCommand :=
  { DashboardUid := "",
    OrgId := 0,
    PublicDashboard :=
      { Uid := dto.PublicDashboard.Uid,
        IsEnabled := dto.PublicDashboard.IsEnabled,
        TimeSettings := dto.PublicDashboard.TimeSettings,
        UpdatedBy := dto.UserId,
        UpdatedAt := w.now,
        DashboardUid := "",
        OrgId := 0,
        AccessToken := "",
        CreatedBy := 0,
        CreatedAt := 0 } }

/-- The update path `updatePublicDashboardConfig`, with the calls it makes. -/
def DashboardServiceImpl.updatePublicDashboardConfig (dr : DashboardServiceImpl) (w : World)
    (dto : SavePublicDashboardConfigDTO) :
    (Option PublicDashboard × Option Error) × List Call :=
  let cmd := updateCommand w dto
  (dr.dashboardStore.UpdatePublicDashboardConfig cmd, [Call.UpdatePublicDashboardConfig cmd])

/-- `SavePublicDashboardConfig`: persists the sharing config, creating it when the config has
no uid and updating it otherwise; with the calls it makes. -/
def DashboardServiceImpl.SavePublicDashboardConfig (dr : DashboardServiceImpl) (w : World)
    (dto : SavePublicDashboardConfigDTO) :
    (Option PublicDashboard × Option Error) × List Call :=
  if dto.DashboardUid.length = 0 then
    ((none, some Error.ErrDashboardIdentifierNotSet), [])
  else if dto.PublicDashboard.Uid = "" then
    dr.savePublicDashboardConfig w dto
  else
    dr.updatePublicDashboardConfig w dto

/-- The world as the next attempt would find it: one result of the random source consumed. -/
def World.afterOneDraw (w : World) : World :=
  { w with rand := (GenerateAccessToken w.rand).2 }

/-- The value `uuid.Nil`, which `uuid.NewV4` returns next to an error. -/
def nilUUID : UUID :=
  { bytes := [0, 0, 0, 0, 0, 0, 0, 0, 0, 0, 0, 0, 0, 0, 0, 0], size := rfl }

/-- A sample UUID; its token is `1f8b0800a3c94e5d9b7f0123456789ab`. -/
def sampleUUID : UUID :=
  { bytes := [0x1f, 0x8b, 0x08, 0x00, 0xa3, 0xc9, 0x4e, 0x5d,
              0x9b, 0x7f, 0x01, 0x23, 0x45, 0x67, 0x89, 0xab],
    size := rfl }

/-- A second sample UUID, differing from `sampleUUID` in its last byte. -/
def otherUUID : UUID :=
  { bytes := [0x1f, 0x8b, 0x08, 0x00, 0xa3, 0xc9, 0x4e, 0x5d,
              0x9b, 0x7f, 0x01, 0x23, 0x45, 0x67, 0x89, 0xac],
    size := rfl }

/-- A world at instant 1000 whose random source always answers `sampleUUID`. -/
def sampleWorld : World :=
  { now := 1000, rand := fun _ => (sampleUUID, none) }

/-- A world whose random source fails on its first call and answers from the second call on. -/
def flakyWorld : World :=
  { now := 1000,
    rand := fun k =>
      if k = 0 then (nilUUID, some (Error.other "entropy unavailable")) else (sampleUUID, none) }

/-- A world whose random source answers `sampleUUID` first and `otherUUID` afterwards. -/
def twoTokenWorld : World :=
  { now := 1000, rand := fun k => if k = 0 then (sampleUUID, none) else (otherUUID, none) }

/-- A service whose store refuses to insert a row holding the token of `sampleUUID`, which is
already taken, and inserts any other row. -/
def duplicateTokenService : DashboardServiceImpl :=
  { dashboardStore :=
    { scenarioA.dashboardStore with
      SavePublicDashboardConfig := fun cmd =>
        if cmd.PublicDashboard.AccessToken = sampleUUID.hex then
          (none, some (Error.other "UNIQUE constraint failed: access_token"))
        else (some cmd.PublicDashboard, none) } }

/-- A service whose store cannot generate a uid. -/
def noUidService : DashboardServiceImpl :=
  { dashboardStore :=
    { scenarioA.dashboardStore with
      GenerateNewPublicDashboardUid := ("", some (Error.other "failed to generate uid")) } }

/-- A create request (no config uid) for dashboard `dash-1`; the caller filled in a token, a
creator and timestamps of its own. -/
def createDTO : SavePublicDashboardConfigDTO :=
  { DashboardUid := "dash-1", OrgId := 1, UserId := 7,
    PublicDashboard :=
      { Uid := "", DashboardUid := "dash-9", OrgId := 9,
        TimeSettings := some { From := "now-6h", To := "now" }, IsEnabled := true,
        AccessToken := "chosen-by-caller", CreatedBy := 99, UpdatedBy := 98,
        CreatedAt := 5, UpdatedAt := 6 } }

/-- The same create request with nothing of its own in the system-assigned fields. -/
def plainCreateDTO : SavePublicDashboardConfigDTO :=
  { DashboardUid := "dash-1", OrgId := 1, UserId := 7,
    PublicDashboard :=
      { Uid := "", DashboardUid := "", OrgId := 0,
        TimeSettings := some { From := "now-6h", To := "now" }, IsEnabled := true,
        AccessToken := "", CreatedBy := 0, UpdatedBy := 0, CreatedAt := 0, UpdatedAt := 0 } }

/-- An update request for the config `pd-1`. -/
def updateDTO : SavePublicDashboardConfigDTO :=
  { DashboardUid := "dash-1", OrgId := 1, UserId := 7,
    PublicDashboard :=
      { Uid := "pd-1", DashboardUid := "dash-1", OrgId := 1,
        TimeSettings := none, IsEnabled := false,
        AccessToken := "tok", CreatedBy := 7, UpdatedBy := 0, CreatedAt := 100, UpdatedAt := 0 } }

/-- The same update request with another access token, dashboard and organization. -/
def forgedUpdateDTO : SavePublicDashboardConfigDTO :=
  { DashboardUid := "dash-2", OrgId := 2, UserId := 7,
    PublicDashboard :=
      { Uid := "pd-1", DashboardUid := "dash-2", OrgId := 2,
        TimeSettings := none, IsEnabled := false,
        AccessToken := "forged", CreatedBy := 7, UpdatedBy := 0, CreatedAt := 100,
        UpdatedAt := 0 } }

/-- A service whose store refuses every update. -/
def staleUpdateService : DashboardServiceImpl :=
  { dashboardStore :=
    { scenarioA.dashboardStore with
      UpdatePublicDashboardConfig := fun _ =>
        (none, some (Error.other "no row was updated")) } }

/-! ## The plugin store (`pkg/plugins/manager/store/store.go`)

Packages `plugins` and `registry` are declared outside src/: the plugin type, its methods and
the registry are parameters. A pointer result `(*Plugin, bool)` or `*Plugin` is an `Option`. -/

namespace PluginStore

/-- What `store.go` uses of package `plugins` (declared outside src/), as parameters: the field
`Type` of a plugin, its methods, the list `plugins.PluginTypes` and the zero value
`plugins.PluginDTO{}`. -/
structure PluginsPkg (P D R : Type) where
  TypeOf : P → String
  IsDecommissioned : P → Bool
  IsRenderer : P → Bool
  IsSecretsManager : P → Bool
  StaticRoute : P → Option R
  ToDTO : P → D
  PluginTypes : List String
  zeroDTO : D

/-- The two methods of `registry.Service` that `store.go` calls. -/
structure Registry (P : Type) where
  Plugin : String → Option P
  Plugins : List P

/-- The store service: it holds the plugin registry. -/
structure Service (P : Type) where
  pluginRegistry : Registry P

section Operations

variable {P D R : Type} (pkg : PluginsPkg P D R)

/-- `plugin`: finds a plugin with `pluginID` from the registry that is not decommissioned. -/
def Service.plugin (s : Service P) (pluginID : String) : Option P :=
  match s.pluginRegistry.Plugin pluginID with
  | none => none
  | some p => if pkg.IsDecommissioned p then none else some p

/-- `Plugin`: the DTO of the plugin and `true`, or the zero DTO and `false`. -/
def Service.Plugin (s : Service P) (pluginID : String) : D × Bool :=
  match s.plugin pkg pluginID with
  | none => (pkg.zeroDTO, false)
  | some p => (pkg.ToDTO p, true)

/-- `availablePlugins`: all non-decommissioned plugins from the registry. -/
def Service.availablePlugins (s : Service P) : List P :=
  s.pluginRegistry.Plugins.foldl
    (fun res p => if !pkg.IsDecommissioned p then res ++ [p] else res) []

/-- `Plugins`: the DTOs of the available plugins of the requested types. -/
def Service.Plugins (s : Service P) (pluginTypes : List String) : List D :=
  let pluginTypes := if pluginTypes.length = 0 then pkg.PluginTypes else pluginTypes
  let requestedTypes : GoMap String Unit :=
    pluginTypes.foldl (fun m pt => GoMap.assign m pt ()) GoMap.empty
  (s.availablePlugins pkg).foldl
    (fun pluginsList p =>
      if (GoMap.lookup requestedTypes (pkg.TypeOf p)).isSome then pluginsList ++ [pkg.ToDTO p]
      else pluginsList) []

/-- The loop `for _, p := range ps, if test(p), return p` followed by `return nil`. -/
def firstWhere (test : P → Bool) : List P → Option P
  | [] => none
  | p :: rest => if test p then some p else firstWhere test rest

/-- `Renderer`: the first available plugin that is a renderer. -/
def Service.Renderer (s : Service P) : Option P :=
  firstWhere pkg.IsRenderer (s.availablePlugins pkg)

/-- `SecretsManager`: the first available plugin that is a secrets manager. -/
def Service.SecretsManager (s : Service P) : Option P :=
  firstWhere pkg.IsSecretsManager (s.availablePlugins pkg)

/-- `Routes`: the static routes of the available plugins that have one. -/
def Service.Routes (s : Service P) : List R :=
  (s.availablePlugins pkg).foldl
    (fun staticRoutes p =>
      match pkg.StaticRoute p with
      | some r => staticRoutes ++ [r]
      | none => staticRoutes) []

end Operations

/-- A sample plugin: what the methods of a plugin answer. -/
structure SamplePlugin where
  ID : String
  kind : String
  decommissioned : Bool
  core : Bool
  deriving DecidableEq, Repr

/-- The sample package: renderers and secrets managers are recognised by their type, a plugin
that is not a core plugin has a static route named after it, the DTO is the plugin id. -/
def samplePkg : PluginsPkg SamplePlugin String String :=
  { TypeOf := fun p => p.kind,
    IsDecommissioned := fun p => p.decommissioned,
    IsRenderer := fun p => p.kind = "renderer",
    IsSecretsManager := fun p => p.kind = "secretsmanager",
    StaticRoute := fun p => if p.core then none else some ("public/plugins/" ++ p.ID),
    ToDTO := fun p => p.ID,
    PluginTypes := ["datasource", "panel", "app", "renderer", "secretsmanager"],
    zeroDTO := "" }

/-- Five sample plugins; `old-renderer` and `loki` are decommissioned. -/
def samplePlugins : List SamplePlugin :=
  [{ ID := "old-renderer", kind := "renderer", decommissioned := true, core := false },
   { ID := "prometheus", kind := "datasource", decommissioned := false, core := true },
   { ID := "image-renderer", kind := "renderer", decommissioned := false, core := false },
   { ID := "loki", kind := "datasource", decommissioned := true, core := false },
   { ID := "piechart", kind := "panel", decommissioned := false, core := false }]

/-- A store over a registry holding the sample plugins, looked up by id. -/
def sampleStore : Service SamplePlugin :=
  { pluginRegistry :=
    { Plugin := fun pluginID => samplePlugins.find? (fun p => p.ID = pluginID),
      Plugins := samplePlugins } }

end PluginStore

/-! ## The outcomes of the two read operations, case by case -/

section Outcomes

variable (G : Json → GoMap Int (List Json)) (dr : DashboardServiceImpl) (token : String)
  (panelId : Int)

theorem getPublicDashboard_of_error (pd : Option PublicDashboard) (d : Option Dashboard)
    (e : Error) (hrow : dr.dashboardStore.GetPublicDashboard token = (pd, d, some e)) :
    dr.GetPublicDashboard token = (none, some e) := by
  simp [DashboardServiceImpl.GetPublicDashboard, hrow]

theorem getPublicDashboard_of_missing (pd : Option PublicDashboard) (d : Option Dashboard)
    (hrow : dr.dashboardStore.GetPublicDashboard token = (pd, d, none))
    (hmiss : pd = none ∨ d = none) :
    dr.GetPublicDashboard token = (none, some Error.ErrPublicDashboardNotFound) := by
  rcases hmiss with h | h
  · subst h
    simp [DashboardServiceImpl.GetPublicDashboard, hrow]
  · subst h
    cases pd <;> simp [DashboardServiceImpl.GetPublicDashboard, hrow]

theorem getPublicDashboard_of_disabled (pd : PublicDashboard) (d : Dashboard)
    (hrow : dr.dashboardStore.GetPublicDashboard token = (some pd, some d, none))
    (hdis : pd.IsEnabled = false) :
    dr.GetPublicDashboard token = (none, some Error.ErrPublicDashboardNotFound) := by
  simp [DashboardServiceImpl.GetPublicDashboard, hrow, hdis]

theorem build_of_error (pd : Option PublicDashboard) (d : Option Dashboard) (e : Error)
    (hrow : dr.dashboardStore.GetPublicDashboard token = (pd, d, some e)) :
    dr.BuildPublicDashboardMetricRequest G token panelId = (MetricRequest.zero, none, some e) := by
  simp [DashboardServiceImpl.BuildPublicDashboardMetricRequest, hrow]

theorem build_of_missing (pd : Option PublicDashboard) (d : Option Dashboard)
    (hrow : dr.dashboardStore.GetPublicDashboard token = (pd, d, none))
    (hmiss : pd = none ∨ d = none) :
    dr.BuildPublicDashboardMetricRequest G token panelId
      = (MetricRequest.zero, none, some Error.ErrPublicDashboardNotFound) := by
  rcases hmiss with h | h
  · subst h
    simp [DashboardServiceImpl.BuildPublicDashboardMetricRequest, hrow]
  · subst h
    cases pd <;> simp [DashboardServiceImpl.BuildPublicDashboardMetricRequest, hrow]

theorem build_of_disabled (pd : PublicDashboard) (d : Dashboard)
    (hrow : dr.dashboardStore.GetPublicDashboard token = (some pd, some d, none))
    (hdis : pd.IsEnabled = false) :
    dr.BuildPublicDashboardMetricRequest G token panelId
      = (MetricRequest.zero, none, some Error.ErrPublicDashboardNotFound) := by
  simp [DashboardServiceImpl.BuildPublicDashboardMetricRequest, hrow, hdis]

theorem build_of_no_panel (pd : PublicDashboard) (d : Dashboard)
    (hrow : dr.dashboardStore.GetPublicDashboard token = (some pd, some d, none))
    (hen : pd.IsEnabled = true) (hpanel : GoMap.lookup (G d.Data) panelId = none) :
    dr.BuildPublicDashboardMetricRequest G token panelId
      = (MetricRequest.zero, none, some Error.ErrPublicDashboardPanelNotFound) := by
  simp [DashboardServiceImpl.BuildPublicDashboardMetricRequest, hrow, hen, hpanel]

theorem actionQuery_ne_actionRead : ActionQuery ≠ ActionRead := by decide

theorem build_of_panel (pd : PublicDashboard) (d : Dashboard) (queries : List Json)
    (hrow : dr.dashboardStore.GetPublicDashboard token = (some pd, some d, none))
    (hen : pd.IsEnabled = true) (hpanel : GoMap.lookup (G d.Data) panelId = some queries) :
    dr.BuildPublicDashboardMetricRequest G token panelId
      = ({ From := (pd.BuildTimeSettings d).From, To := (pd.BuildTimeSettings d).To,
           Queries := queries },
         some { OrgId := d.OrgId,
                Permissions :=
                  [(d.OrgId, [(ActionQuery, [datasourceScope (collectUids queries)]),
                              (ActionRead, [datasourceScope (collectUids queries)])])] },
         none) := by
  simp [DashboardServiceImpl.BuildPublicDashboardMetricRequest, hrow, hen, hpanel,
    MetricRequest.zero, GoMap.assign, GoMap.empty, actionQuery_ne_actionRead]

/-- A call that returns the nil error passed every check: the config is enabled and the
panel is a key of the index. -/
theorem build_success_inv (pd : PublicDashboard) (d : Dashboard)
    (hrow : dr.dashboardStore.GetPublicDashboard token = (some pd, some d, none))
    (hok : (dr.BuildPublicDashboardMetricRequest G token panelId).2.2 = none) :
    pd.IsEnabled = true ∧ ∃ queries, GoMap.lookup (G d.Data) panelId = some queries := by
  cases hen : pd.IsEnabled with
  | false =>
    rw [build_of_disabled G dr token panelId pd d hrow hen] at hok
    simp at hok
  | true =>
    cases hpanel : GoMap.lookup (G d.Data) panelId with
    | none =>
      rw [build_of_no_panel G dr token panelId pd d hrow hen hpanel] at hok
      simp at hok
    | some queries => exact ⟨rfl, queries, rfl⟩

end Outcomes

/-! ## The scope string and the identifiers it enumerates -/

theorem foldl_append_singleton (f : Json → String) (queries : List Json) (acc : List String) :
    queries.foldl (fun uids query => uids ++ [f query]) acc = acc ++ queries.map f := by
  induction queries generalizing acc with
  | nil => simp
  | cons q rest ih => simp [ih]

/-- The loop collects exactly one uid per query, in query order. -/
theorem collectUids_eq_map (queries : List Json) :
    collectUids queries = queries.map datasourceUid := by
  simp [collectUids, foldl_append_singleton]

theorem splitOnComma_of_no_comma (cs : List Char) (h : ',' ∉ cs) : splitOnComma cs = [cs] := by
  induction cs with
  | nil => rfl
  | cons c rest ih =>
    have hc : c ≠ ',' := fun e => h (by simp [e])
    have hrest : ',' ∉ rest := fun e => h (by simp [e])
    simp [splitOnComma, hc, ih hrest]

theorem splitOnComma_append_comma (cs rest : List Char) (h : ',' ∉ cs) :
    splitOnComma (cs ++ ',' :: rest) = cs :: splitOnComma rest := by
  induction cs with
  | nil => simp [splitOnComma]
  | cons c more ih =>
    have hc : c ≠ ',' := fun e => h (by simp [e])
    have hmore : ',' ∉ more := fun e => h (by simp [e])
    simp [splitOnComma, hc, ih hmore]

/-- Splitting the comma-join of comma-free strings gives the strings back. -/
theorem splitOnComma_stringsJoin (uids : List String) (hne : uids ≠ [])
    (hcomma : ∀ u ∈ uids, ',' ∉ u.data) :
    splitOnComma (stringsJoin uids ",").data = uids.map String.data := by
  induction uids with
  | nil => exact absurd rfl hne
  | cons a rest ih =>
    cases rest with
    | nil =>
      simpa [stringsJoin] using splitOnComma_of_no_comma a.data (hcomma a (by simp))
    | cons b more =>
      have ha : ',' ∉ a.data := hcomma a (by simp)
      have hrest : ∀ u ∈ b :: more, ',' ∉ u.data := fun u hu => hcomma u (by simp [hu])
      have ih2 := ih (by simp) hrest
      have hdata : (stringsJoin (a :: b :: more) ",").data
          = a.data ++ ',' :: (stringsJoin (b :: more) ",").data := by
        simp [stringsJoin, String.data_append]
      rw [hdata, splitOnComma_append_comma _ _ ha, ih2]
      simp

theorem stringsJoin_data_ne_nil (uids : List String) (hne : uids ≠ [])
    (hfull : ∀ u ∈ uids, u ≠ "") : (stringsJoin uids ",").data ≠ [] := by
  cases uids with
  | nil => exact absurd rfl hne
  | cons a rest =>
    have ha : a.data ≠ [] := by
      intro h
      apply hfull a (by simp)
      exact String.ext h
    cases rest with
    | nil => simpa [stringsJoin] using ha
    | cons b more => simp [stringsJoin, String.data_append, ha]

/-- The scope string enumerates the collected uids, in order, when every uid is non-empty and
comma-free; this includes the empty list. -/
theorem scopeIdentifiers_datasourceScope (uids : List String)
    (hfull : ∀ u ∈ uids, u ≠ "") (hcomma : ∀ u ∈ uids, ',' ∉ u.data) :
    scopeIdentifiers (datasourceScope uids) = uids := by
  have hdrop : (datasourceScope uids).data.drop 16 = (stringsJoin uids ",").data := by
    simp only [datasourceScope, String.data_append]
    rfl
  unfold scopeIdentifiers
  simp only [hdrop]
  by_cases hne : uids = []
  · subst hne
    simp [stringsJoin]
  · rw [if_neg (stringsJoin_data_ne_nil uids hne hfull),
      splitOnComma_stringsJoin uids hne hcomma]
    simp [List.map_map, Function.comp_def]

theorem lookup_eq_none_iff {K V : Type} [DecidableEq K] (m : GoMap K V) (k : K) :
    GoMap.lookup m k = none ↔ k ∉ GoMap.keys m := by
  induction m with
  | nil => simp [GoMap.lookup, GoMap.keys]
  | cons e rest ih =>
    obtain ⟨k2, v⟩ := e
    by_cases h : k2 = k
    · simp [GoMap.lookup, GoMap.keys, h]
    · have h2 : ¬ k = k2 := fun e => h e.symm
      simpa [GoMap.lookup, GoMap.keys, h, h2] using ih

/-! ## Token resolution (C1, C2) -/

/-- C1: when the store returns, without error, a present config and a present dashboard and the
config has `IsEnabled = false`, both `GetPublicDashboard` and
`BuildPublicDashboardMetricRequest` fail with `ErrPublicDashboardNotFound`, and their whole
results equal the results obtained for a token the store has no row for. -/
theorem C1_disabled_share_is_not_found (G : Json → GoMap Int (List Json))
    (dr : DashboardServiceImpl) (token : String) (panelId : Int)
    (pd : PublicDashboard) (d : Dashboard)
    (hrow : dr.dashboardStore.GetPublicDashboard token = (some pd, some d, none))
    (hdis : pd.IsEnabled = false)
    (dr2 : DashboardServiceImpl) (token2 : String) (d2 : Option Dashboard)
    (hnorow : dr2.dashboardStore.GetPublicDashboard token2 = (none, d2, none)) :
    (dr.GetPublicDashboard token).2 = some Error.ErrPublicDashboardNotFound ∧
    (dr.BuildPublicDashboardMetricRequest G token panelId).2.2
      = some Error.ErrPublicDashboardNotFound ∧
    dr.GetPublicDashboard token = dr2.GetPublicDashboard token2 ∧
    dr.BuildPublicDashboardMetricRequest G token panelId
      = dr2.BuildPublicDashboardMetricRequest G token2 panelId := by
  rw [getPublicDashboard_of_disabled dr token pd d hrow hdis,
    build_of_disabled G dr token panelId pd d hrow hdis,
    getPublicDashboard_of_missing dr2 token2 none d2 hnorow (Or.inl rfl),
    build_of_missing G dr2 token2 panelId none d2 hnorow (Or.inl rfl)]
  exact ⟨rfl, rfl, rfl, rfl⟩

/-- Scenario B: the disabled share answers exactly like an unknown token. -/
theorem C1_disabled_share_is_not_found_witness :
    (scenarioB.GetPublicDashboard "tok").2 = some Error.ErrPublicDashboardNotFound ∧
    (scenarioB.BuildPublicDashboardMetricRequest samplePanelQueries "tok" 7).2.2
      = some Error.ErrPublicDashboardNotFound ∧
    scenarioB.GetPublicDashboard "tok" = scenarioA.GetPublicDashboard "unknown" ∧
    scenarioB.BuildPublicDashboardMetricRequest samplePanelQueries "tok" 7
      = scenarioA.BuildPublicDashboardMetricRequest samplePanelQueries "unknown" 7 :=
  C1_disabled_share_is_not_found samplePanelQueries scenarioB "tok" 7
    (sampleConfig false (some { From := "now-6h", To := "now" }))
    (sampleDashboard [(7, [sampleQuery "A" "ds-A", sampleQuery "B" "ds-B"])]) rfl rfl
    scenarioA "unknown" none rfl

/-- C2: when the store returns no error but the config is absent or the dashboard is absent
(either one, or both), `GetPublicDashboard` and `BuildPublicDashboardMetricRequest` fail with
`ErrPublicDashboardNotFound`, the same error whichever of the two is missing. -/
theorem C2_missing_config_or_dashboard_is_not_found (G : Json → GoMap Int (List Json))
    (dr : DashboardServiceImpl) (token : String) (panelId : Int)
    (pd : Option PublicDashboard) (d : Option Dashboard)
    (hrow : dr.dashboardStore.GetPublicDashboard token = (pd, d, none))
    (hmiss : pd = none ∨ d = none) :
    dr.GetPublicDashboard token = (none, some Error.ErrPublicDashboardNotFound) ∧
    (dr.BuildPublicDashboardMetricRequest G token panelId).2.2
      = some Error.ErrPublicDashboardNotFound := by
  rw [getPublicDashboard_of_missing dr token pd d hrow hmiss,
    build_of_missing G dr token panelId pd d hrow hmiss]
  exact ⟨rfl, rfl⟩

/-- A row whose dashboard is gone is reported as not found. -/
theorem C2_missing_config_or_dashboard_is_not_found_witness :
    scenarioOrphan.GetPublicDashboard "tok" = (none, some Error.ErrPublicDashboardNotFound) ∧
    (scenarioOrphan.BuildPublicDashboardMetricRequest samplePanelQueries "tok" 7).2.2
      = some Error.ErrPublicDashboardNotFound :=
  C2_missing_config_or_dashboard_is_not_found samplePanelQueries scenarioOrphan "tok" 7
    (some (sampleConfig true none)) none rfl (Or.inr rfl)

/-- C3: for a successful `BuildPublicDashboardMetricRequest` in which every query of the
requested panel names a datasource uid (non-empty, without comma), the identity holds a scope,
and the set of identifiers every scope of the identity enumerates equals the set of datasource
uids the panel's queries reference. -/
theorem C3_scope_covers_exactly_the_referenced_datasources (G : Json → GoMap Int (List Json))
    (dr : DashboardServiceImpl) (token : String) (panelId : Int)
    (pd : PublicDashboard) (d : Dashboard) (queries : List Json)
    (hrow : dr.dashboardStore.GetPublicDashboard token = (some pd, some d, none))
    (hpanel : GoMap.lookup (G d.Data) panelId = some queries)
    (hok : (dr.BuildPublicDashboardMetricRequest G token panelId).2.2 = none)
    (huid : ∀ q ∈ queries, namesDatasource q) :
    ∃ user, (dr.BuildPublicDashboardMetricRequest G token panelId).2.1 = some user ∧
      grantedScopes user ≠ [] ∧
      ∀ s ∈ grantedScopes user,
        (scopeIdentifiers s).toFinset = (queries.map datasourceUid).toFinset := by
  obtain ⟨hen, _⟩ := build_success_inv G dr token panelId pd d hrow hok
  have hids : scopeIdentifiers (datasourceScope (collectUids queries))
      = queries.map datasourceUid := by
    rw [collectUids_eq_map]
    apply scopeIdentifiers_datasourceScope
    · intro u hu
      obtain ⟨q, hq, rfl⟩ := List.mem_map.mp hu
      exact (huid q hq).1
    · intro u hu
      obtain ⟨q, hq, rfl⟩ := List.mem_map.mp hu
      exact (huid q hq).2
  rw [build_of_panel G dr token panelId pd d queries hrow hen hpanel]
  refine ⟨_, rfl, ?_, ?_⟩
  · simp [grantedScopes]
  · intro s hs
    have hs2 : s = datasourceScope (collectUids queries) := by
      simpa [grantedScopes] using hs
    rw [hs2, hids]

/-- Scenario A: the scopes of the identity enumerate exactly `ds-A` and `ds-B`. -/
theorem C3_scope_covers_exactly_the_referenced_datasources_witness :
    ∃ user, (scenarioA.BuildPublicDashboardMetricRequest samplePanelQueries "tok" 7).2.1
        = some user ∧
      grantedScopes user ≠ [] ∧
      ∀ s ∈ grantedScopes user,
        (scopeIdentifiers s).toFinset
          = ([sampleQuery "A" "ds-A", sampleQuery "B" "ds-B"].map datasourceUid).toFinset :=
  C3_scope_covers_exactly_the_referenced_datasources samplePanelQueries scenarioA "tok" 7
    (sampleConfig true (some { From := "now-6h", To := "now" }))
    (sampleDashboard [(7, [sampleQuery "A" "ds-A", sampleQuery "B" "ds-B"])])
    [sampleQuery "A" "ds-A", sampleQuery "B" "ds-B"] rfl rfl rfl (by decide)

/-- C4: for a successful `BuildPublicDashboardMetricRequest` the identity has the resolved
dashboard's `OrgId`, its `Permissions` map has that `OrgId` as its only key, and under it
exactly the two distinct actions `ActionQuery` and `ActionRead` are granted, each with exactly
one scope string, the same for both. -/
theorem C4_identity_grants_query_and_read_for_one_org (G : Json → GoMap Int (List Json))
    (dr : DashboardServiceImpl) (token : String) (panelId : Int)
    (pd : PublicDashboard) (d : Dashboard)
    (hrow : dr.dashboardStore.GetPublicDashboard token = (some pd, some d, none))
    (hok : (dr.BuildPublicDashboardMetricRequest G token panelId).2.2 = none) :
    ∃ user perms scope,
      (dr.BuildPublicDashboardMetricRequest G token panelId).2.1 = some user ∧
      user.OrgId = d.OrgId ∧
      GoMap.keys user.Permissions = [d.OrgId] ∧
      GoMap.lookup user.Permissions d.OrgId = some perms ∧
      (GoMap.keys perms).Perm [ActionQuery, ActionRead] ∧
      ActionQuery ≠ ActionRead ∧
      GoMap.lookup perms ActionQuery = some [scope] ∧
      GoMap.lookup perms ActionRead = some [scope] := by
  obtain ⟨hen, queries, hpanel⟩ := build_success_inv G dr token panelId pd d hrow hok
  rw [build_of_panel G dr token panelId pd d queries hrow hen hpanel]
  refine ⟨_, [(ActionQuery, [datasourceScope (collectUids queries)]),
    (ActionRead, [datasourceScope (collectUids queries)])],
    datasourceScope (collectUids queries), rfl, rfl, rfl, ?_, ?_, actionQuery_ne_actionRead,
    ?_, ?_⟩
  · simp [GoMap.lookup]
  · simp [GoMap.keys]
  · simp [GoMap.lookup]
  · simp [GoMap.lookup, actionQuery_ne_actionRead]

/-- Scenario A: organization 1 only, the two actions, one shared scope. -/
theorem C4_identity_grants_query_and_read_for_one_org_witness :
    ∃ user perms scope,
      (scenarioA.BuildPublicDashboardMetricRequest samplePanelQueries "tok" 7).2.1
        = some user ∧
      user.OrgId = 1 ∧
      GoMap.keys user.Permissions = [1] ∧
      GoMap.lookup user.Permissions 1 = some perms ∧
      (GoMap.keys perms).Perm [ActionQuery, ActionRead] ∧
      ActionQuery ≠ ActionRead ∧
      GoMap.lookup perms ActionQuery = some [scope] ∧
      GoMap.lookup perms ActionRead = some [scope] :=
  C4_identity_grants_query_and_read_for_one_org samplePanelQueries scenarioA "tok" 7
    (sampleConfig true (some { From := "now-6h", To := "now" }))
    (sampleDashboard [(7, [sampleQuery "A" "ds-A", sampleQuery "B" "ds-B"])]) rfl rfl

/-- C6, as stated, fails: in `scenarioShared` panel 8 is a key of the index with an empty query
list, the config is enabled, the call succeeds, and the identity is granted two actions under
the dashboard's organization. -/
theorem C6_empty_query_list_still_grants_two_actions :
    scenarioShared.dashboardStore.GetPublicDashboard "tok"
      = (some (sampleConfig true none),
         some (sampleDashboard [(7, [sampleQuery "A" "ds-A", sampleQuery "B" "ds-A"]), (8, [])]),
         none) ∧
    (sampleConfig true none).IsEnabled = true ∧
    GoMap.lookup (samplePanelQueries
      (sampleDashboard [(7, [sampleQuery "A" "ds-A", sampleQuery "B" "ds-A"]), (8, [])]).Data) 8
      = some [] ∧
    (scenarioShared.BuildPublicDashboardMetricRequest samplePanelQueries "tok" 8).2.2 = none ∧
    ∃ user, (scenarioShared.BuildPublicDashboardMetricRequest samplePanelQueries "tok" 8).2.1
        = some user ∧
      grantedActions user 1 = ["datasources:query", "datasources:read"] ∧
      ¬ grantedActions user 1 = [] :=
  ⟨rfl, rfl, rfl, rfl, _, rfl, by decide, by decide⟩

/-- C6, amended: when the token resolves to an enabled config and a dashboard whose query index
has the requested panel with an empty query list, `BuildPublicDashboardMetricRequest` succeeds
with an empty `Queries` list, and the identity is granted, under the dashboard's `OrgId`, the
two actions `ActionQuery` and `ActionRead`, each over the single scope `datasources:uid:`,
which enumerates no datasource identifier. -/
theorem C6_empty_query_list_grants_an_empty_scope (G : Json → GoMap Int (List Json))
    (dr : DashboardServiceImpl) (token : String) (panelId : Int)
    (pd : PublicDashboard) (d : Dashboard)
    (hrow : dr.dashboardStore.GetPublicDashboard token = (some pd, some d, none))
    (hen : pd.IsEnabled = true)
    (hpanel : GoMap.lookup (G d.Data) panelId = some []) :
    (dr.BuildPublicDashboardMetricRequest G token panelId).2.2 = none ∧
    (dr.BuildPublicDashboardMetricRequest G token panelId).1.Queries = [] ∧
    ∃ user, (dr.BuildPublicDashboardMetricRequest G token panelId).2.1 = some user ∧
      (grantedActions user d.OrgId).Perm [ActionQuery, ActionRead] ∧
      grantedScopes user = ["datasources:uid:", "datasources:uid:"] ∧
      ∀ s ∈ grantedScopes user, scopeIdentifiers s = [] := by
  rw [build_of_panel G dr token panelId pd d [] hrow hen hpanel]
  refine ⟨rfl, rfl, _, rfl, ?_, ?_, ?_⟩
  · simp [grantedActions, GoMap.lookup, GoMap.keys]
  · simp [grantedScopes, collectUids, datasourceScope, stringsJoin]
  · intro s hs
    have hs2 : s = "datasources:uid:" := by
      simpa [grantedScopes, collectUids, datasourceScope, stringsJoin] using hs
    rw [hs2]
    decide

/-- Panel 8 of `scenarioShared` issues no query: both actions over the scope that names none. -/
theorem C6_empty_query_list_grants_an_empty_scope_witness :
    (scenarioShared.BuildPublicDashboardMetricRequest samplePanelQueries "tok" 8).2.2 = none ∧
    (scenarioShared.BuildPublicDashboardMetricRequest samplePanelQueries "tok" 8).1.Queries
      = [] ∧
    ∃ user, (scenarioShared.BuildPublicDashboardMetricRequest samplePanelQueries "tok" 8).2.1
        = some user ∧
      (grantedActions user 1).Perm [ActionQuery, ActionRead] ∧
      grantedScopes user = ["datasources:uid:", "datasources:uid:"] ∧
      ∀ s ∈ grantedScopes user, scopeIdentifiers s = [] :=
  C6_empty_query_list_grants_an_empty_scope samplePanelQueries scenarioShared "tok" 8
    (sampleConfig true none)
    (sampleDashboard [(7, [sampleQuery "A" "ds-A", sampleQuery "B" "ds-A"]), (8, [])])
    rfl rfl rfl

/-! ## Query extraction, time window and failure results (C7 to C10) -/

/-- C7: when the token resolves, without storage error, to a present enabled config and a
present dashboard, `BuildPublicDashboardMetricRequest` fails with
`ErrPublicDashboardPanelNotFound` if and only if `panelId` is not a key of the index
`GetQueriesFromDashboard` builds from the dashboard. -/
theorem C7_panel_not_found_iff_not_a_key (G : Json → GoMap Int (List Json))
    (dr : DashboardServiceImpl) (token : String) (panelId : Int)
    (pd : PublicDashboard) (d : Dashboard)
    (hrow : dr.dashboardStore.GetPublicDashboard token = (some pd, some d, none))
    (hen : pd.IsEnabled = true) :
    (dr.BuildPublicDashboardMetricRequest G token panelId).2.2
        = some Error.ErrPublicDashboardPanelNotFound
      ↔ panelId ∉ GoMap.keys (G d.Data) := by
  rw [← lookup_eq_none_iff]
  cases hpanel : GoMap.lookup (G d.Data) panelId with
  | none => simp [build_of_no_panel G dr token panelId pd d hrow hen hpanel]
  | some queries => simp [build_of_panel G dr token panelId pd d queries hrow hen hpanel]

/-- Scenario C of the spec: panel 99 is not in the dashboard of scenario A, panel 7 is. -/
theorem C7_panel_not_found_iff_not_a_key_witness :
    ((scenarioA.BuildPublicDashboardMetricRequest samplePanelQueries "tok" 99).2.2
        = some Error.ErrPublicDashboardPanelNotFound
      ↔ (99 : Int) ∉ GoMap.keys (samplePanelQueries
          (sampleDashboard [(7, [sampleQuery "A" "ds-A", sampleQuery "B" "ds-B"])]).Data)) ∧
    (scenarioA.BuildPublicDashboardMetricRequest samplePanelQueries "tok" 99).2.2
        = some Error.ErrPublicDashboardPanelNotFound :=
  ⟨C7_panel_not_found_iff_not_a_key samplePanelQueries scenarioA "tok" 99
    (sampleConfig true (some { From := "now-6h", To := "now" }))
    (sampleDashboard [(7, [sampleQuery "A" "ds-A", sampleQuery "B" "ds-B"])]) rfl rfl, rfl⟩

/-- C8: for a successful `BuildPublicDashboardMetricRequest` on a resolved config and
dashboard, the window `(From, To)` of the MetricRequest is the config's time settings verbatim
when they are set, whatever the dashboard's own defaults are, and is the dashboard's own
`time.from` and `time.to` when they are unset. -/
theorem C8_time_window_precedence (G : Json → GoMap Int (List Json))
    (dr : DashboardServiceImpl) (token : String) (panelId : Int)
    (pd : PublicDashboard) (d : Dashboard)
    (hrow : dr.dashboardStore.GetPublicDashboard token = (some pd, some d, none))
    (hok : (dr.BuildPublicDashboardMetricRequest G token panelId).2.2 = none) :
    (∀ ts, pd.TimeSettings = some ts →
      (dr.BuildPublicDashboardMetricRequest G token panelId).1.From = ts.From ∧
      (dr.BuildPublicDashboardMetricRequest G token panelId).1.To = ts.To) ∧
    (pd.TimeSettings = none →
      (dr.BuildPublicDashboardMetricRequest G token panelId).1.From
        = (d.Data.GetPath ["time", "from"]).MustString ∧
      (dr.BuildPublicDashboardMetricRequest G token panelId).1.To
        = (d.Data.GetPath ["time", "to"]).MustString) := by
  obtain ⟨hen, queries, hpanel⟩ := build_success_inv G dr token panelId pd d hrow hok
  rw [build_of_panel G dr token panelId pd d queries hrow hen hpanel]
  constructor
  · intro ts hts
    simp [PublicDashboard.BuildTimeSettings, hts]
  · intro hts
    simp [PublicDashboard.BuildTimeSettings, hts]

/-- Scenario A: the override `now-6h .. now` wins over the dashboard's `now-1h .. now`. -/
theorem C8_time_window_precedence_witness :
    (scenarioA.BuildPublicDashboardMetricRequest samplePanelQueries "tok" 7).1.From = "now-6h" ∧
    (scenarioA.BuildPublicDashboardMetricRequest samplePanelQueries "tok" 7).1.To = "now" :=
  (C8_time_window_precedence samplePanelQueries scenarioA "tok" 7
    (sampleConfig true (some { From := "now-6h", To := "now" }))
    (sampleDashboard [(7, [sampleQuery "A" "ds-A", sampleQuery "B" "ds-B"])]) rfl rfl).1
    { From := "now-6h", To := "now" } rfl

/-- C9: whenever `BuildPublicDashboardMetricRequest` returns a non-nil error, the returned
MetricRequest is the zero value and the returned identity is nil (so a non-zero MetricRequest
or a non-nil identity comes only with the nil error). -/
theorem C9_failure_returns_zero_request_and_nil_identity (G : Json → GoMap Int (List Json))
    (dr : DashboardServiceImpl) (token : String) (panelId : Int)
    (herr : (dr.BuildPublicDashboardMetricRequest G token panelId).2.2 ≠ none) :
    (dr.BuildPublicDashboardMetricRequest G token panelId).1 = MetricRequest.zero ∧
    (dr.BuildPublicDashboardMetricRequest G token panelId).2.1 = none := by
  rcases hrow : dr.dashboardStore.GetPublicDashboard token with ⟨pd, d, err⟩
  cases err with
  | some e => simp [build_of_error G dr token panelId pd d e hrow]
  | none =>
    cases pd with
    | none => simp [build_of_missing G dr token panelId none d hrow (Or.inl rfl)]
    | some pd =>
      cases d with
      | none => simp [build_of_missing G dr token panelId (some pd) none hrow (Or.inr rfl)]
      | some d =>
        cases hen : pd.IsEnabled with
        | false => simp [build_of_disabled G dr token panelId pd d hrow hen]
        | true =>
          cases hpanel : GoMap.lookup (G d.Data) panelId with
          | none => simp [build_of_no_panel G dr token panelId pd d hrow hen hpanel]
          | some queries =>
            rw [build_of_panel G dr token panelId pd d queries hrow hen hpanel] at herr
            exact absurd rfl herr

/-- A storage failure comes with the zero MetricRequest and no identity. -/
theorem C9_failure_returns_zero_request_and_nil_identity_witness :
    (scenarioDown.BuildPublicDashboardMetricRequest samplePanelQueries "tok" 7).2.2
      = some (Error.other "database is locked") ∧
    (scenarioDown.BuildPublicDashboardMetricRequest samplePanelQueries "tok" 7).1
      = MetricRequest.zero ∧
    (scenarioDown.BuildPublicDashboardMetricRequest samplePanelQueries "tok" 7).2.1 = none :=
  ⟨rfl, C9_failure_returns_zero_request_and_nil_identity samplePanelQueries scenarioDown
    "tok" 7 (by decide)⟩

/-- C10: for a successful `BuildPublicDashboardMetricRequest`, `MetricRequest.Queries` is
exactly the list stored under `panelId` in the dashboard's query index: the same elements in
the same order, and nothing from another panel. -/
theorem C10_queries_are_the_panel_entry (G : Json → GoMap Int (List Json))
    (dr : DashboardServiceImpl) (token : String) (panelId : Int)
    (pd : PublicDashboard) (d : Dashboard)
    (hrow : dr.dashboardStore.GetPublicDashboard token = (some pd, some d, none))
    (hok : (dr.BuildPublicDashboardMetricRequest G token panelId).2.2 = none) :
    GoMap.lookup (G d.Data) panelId
      = some (dr.BuildPublicDashboardMetricRequest G token panelId).1.Queries := by
  obtain ⟨hen, queries, hpanel⟩ := build_success_inv G dr token panelId pd d hrow hok
  rw [build_of_panel G dr token panelId pd d queries hrow hen hpanel, hpanel]

/-- Scenario A: the request carries the two queries of panel 7, in their declared order. -/
theorem C10_queries_are_the_panel_entry_witness :
    GoMap.lookup (samplePanelQueries
        (sampleDashboard [(7, [sampleQuery "A" "ds-A", sampleQuery "B" "ds-B"])]).Data) 7
      = some (scenarioA.BuildPublicDashboardMetricRequest samplePanelQueries "tok" 7).1.Queries ∧
    (scenarioA.BuildPublicDashboardMetricRequest samplePanelQueries "tok" 7).1.Queries
      = [sampleQuery "A" "ds-A", sampleQuery "B" "ds-B"] :=
  ⟨C10_queries_are_the_panel_entry samplePanelQueries scenarioA "tok" 7
    (sampleConfig true (some { From := "now-6h", To := "now" }))
    (sampleDashboard [(7, [sampleQuery "A" "ds-A", sampleQuery "B" "ds-B"])]) rfl rfl, rfl⟩

/-! ## The outcomes of saving, case by case -/

theorem string_length_eq_zero (s : String) : s.length = 0 ↔ s = "" := by
  constructor
  · intro h
    apply String.ext
    exact List.length_eq_zero.mp h
  · intro h
    rw [h]
    rfl

theorem generateAccessToken_of_uuid (rand : RandomSource) (u : UUID)
    (hrand : rand 0 = (u, none)) : (GenerateAccessToken rand).1 = (u.hex, none) := by
  simp [GenerateAccessToken, hrand]

theorem generateAccessToken_of_error (rand : RandomSource) (u : UUID) (e : Error)
    (hrand : rand 0 = (u, some e)) : (GenerateAccessToken rand).1 = ("", some e) := by
  simp [GenerateAccessToken, hrand]

/-- The command the create path builds from the generated uid and token. -/
theorem save_create (dr : DashboardServiceImpl) (w : World)
    (dto : SavePublicDashboardConfigDTO) (uid : String) (u : UUID)
    (href : dto.DashboardUid ≠ "") (hnew : dto.PublicDashboard.Uid = "")
    (huid : dr.dashboardStore.GenerateNewPublicDashboardUid = (uid, none))
    (hrand : w.rand 0 = (u, none)) :
    dr.SavePublicDashboardConfig w dto
      = (dr.dashboardStore.SavePublicDashboardConfig
          { DashboardUid := dto.DashboardUid, OrgId := dto.OrgId,
            PublicDashboard :=
              { Uid := uid, DashboardUid := dto.DashboardUid, OrgId := dto.OrgId,
                IsEnabled := dto.PublicDashboard.IsEnabled,
                TimeSettings := dto.PublicDashboard.TimeSettings,
                CreatedBy := dto.UserId, CreatedAt := w.now, AccessToken := u.hex,
                UpdatedBy := 0, UpdatedAt := 0 } },
         [Call.GenerateNewPublicDashboardUid, Call.NewV4,
          Call.SavePublicDashboardConfig
          { DashboardUid := dto.DashboardUid, OrgId := dto.OrgId,
            PublicDashboard :=
              { Uid := uid, DashboardUid := dto.DashboardUid, OrgId := dto.OrgId,
                IsEnabled := dto.PublicDashboard.IsEnabled,
                TimeSettings := dto.PublicDashboard.TimeSettings,
                CreatedBy := dto.UserId, CreatedAt := w.now, AccessToken := u.hex,
                UpdatedBy := 0, UpdatedAt := 0 } }]) := by
  have hlen : ¬ dto.DashboardUid.length = 0 := fun h => href ((string_length_eq_zero _).mp h)
  simp [DashboardServiceImpl.SavePublicDashboardConfig,
    DashboardServiceImpl.savePublicDashboardConfig, hlen, hnew, huid,
    generateAccessToken_of_uuid w.rand u hrand]

theorem save_create_token_error (dr : DashboardServiceImpl) (w : World)
    (dto : SavePublicDashboardConfigDTO) (uid : String) (u : UUID) (e : Error)
    (href : dto.DashboardUid ≠ "") (hnew : dto.PublicDashboard.Uid = "")
    (huid : dr.dashboardStore.GenerateNewPublicDashboardUid = (uid, none))
    (hrand : w.rand 0 = (u, some e)) :
    dr.SavePublicDashboardConfig w dto
      = ((none, some e), [Call.GenerateNewPublicDashboardUid, Call.NewV4]) := by
  have hlen : ¬ dto.DashboardUid.length = 0 := fun h => href ((string_length_eq_zero _).mp h)
  simp [DashboardServiceImpl.SavePublicDashboardConfig,
    DashboardServiceImpl.savePublicDashboardConfig, hlen, hnew, huid,
    generateAccessToken_of_error w.rand u e hrand]

theorem save_create_uid_error (dr : DashboardServiceImpl) (w : World)
    (dto : SavePublicDashboardConfigDTO) (uid : String) (e : Error)
    (href : dto.DashboardUid ≠ "") (hnew : dto.PublicDashboard.Uid = "")
    (huid : dr.dashboardStore.GenerateNewPublicDashboardUid = (uid, some e)) :
    dr.SavePublicDashboardConfig w dto
      = ((none, some e), [Call.GenerateNewPublicDashboardUid]) := by
  have hlen : ¬ dto.DashboardUid.length = 0 := fun h => href ((string_length_eq_zero _).mp h)
  simp [DashboardServiceImpl.SavePublicDashboardConfig,
    DashboardServiceImpl.savePublicDashboardConfig, hlen, hnew, huid]

theorem save_update (dr : DashboardServiceImpl) (w : World)
    (dto : SavePublicDashboardConfigDTO)
    (href : dto.DashboardUid ≠ "") (hold : dto.PublicDashboard.Uid ≠ "") :
    dr.SavePublicDashboardConfig w dto
      = (dr.dashboardStore.UpdatePublicDashboardConfig (updateCommand w dto),
         [Call.UpdatePublicDashboardConfig (updateCommand w dto)]) := by
  have hlen : ¬ dto.DashboardUid.length = 0 := fun h => href ((string_length_eq_zero _).mp h)
  simp [DashboardServiceImpl.SavePublicDashboardConfig,
    DashboardServiceImpl.updatePublicDashboardConfig, hlen, hold]

theorem length_flatten_hexByte (bytes : List (Fin 256)) :
    (bytes.map hexByte).flatten.length = 2 * bytes.length := by
  induction bytes with
  | nil => rfl
  | cons b rest ih =>
    simp only [List.map_cons, List.flatten_cons, List.length_append, ih, List.length_cons]
    simp [hexByte]
    omega

/-- A token has thirty-two characters. -/
theorem hex_length (u : UUID) : u.hex.length = 32 := by
  have h := length_flatten_hexByte u.bytes
  rw [u.size] at h
  simpa [UUID.hex, String.length] using h

theorem hex_ne_empty (u : UUID) : u.hex ≠ "" := by
  intro h
  have := hex_length u
  rw [h] at this
  exact absurd this (by decide)

/-! ## Saving a sharing configuration (C11 to C15) -/

/-- C11: on the update path of `SavePublicDashboardConfig` (non-empty dashboard uid, non-empty
config uid), two inputs that agree on the config's `Uid`, `IsEnabled`, `TimeSettings` and on
the user id, whatever their access token, dashboard uid and organization, hand the same command
to the store update; the command carries the empty access token and no dashboard reference, and
the update is the only call made: neither the uid generator nor the token generator runs. -/
theorem C11_update_command_ignores_token_dashboard_and_org (dr : DashboardServiceImpl)
    (w : World) (dto1 dto2 : SavePublicDashboardConfigDTO)
    (href1 : dto1.DashboardUid ≠ "") (href2 : dto2.DashboardUid ≠ "")
    (hold : dto1.PublicDashboard.Uid ≠ "")
    (hUid : dto1.PublicDashboard.Uid = dto2.PublicDashboard.Uid)
    (hEnabled : dto1.PublicDashboard.IsEnabled = dto2.PublicDashboard.IsEnabled)
    (hTime : dto1.PublicDashboard.TimeSettings = dto2.PublicDashboard.TimeSettings)
    (hUser : dto1.UserId = dto2.UserId) :
    ∃ cmd,
      (dr.SavePublicDashboardConfig w dto1).2 = [Call.UpdatePublicDashboardConfig cmd] ∧
      (dr.SavePublicDashboardConfig w dto2).2 = [Call.UpdatePublicDashboardConfig cmd] ∧
      cmd.PublicDashboard.Uid = dto1.PublicDashboard.Uid ∧
      cmd.PublicDashboard.IsEnabled = dto1.PublicDashboard.IsEnabled ∧
      cmd.PublicDashboard.TimeSettings = dto1.PublicDashboard.TimeSettings ∧
      cmd.PublicDashboard.UpdatedBy = dto1.UserId ∧
      cmd.PublicDashboard.UpdatedAt = w.now ∧
      cmd.PublicDashboard.AccessToken = "" ∧
      cmd.PublicDashboard.DashboardUid = "" ∧
      cmd.DashboardUid = "" ∧
      Call.NewV4 ∉ (dr.SavePublicDashboardConfig w dto1).2 ∧
      Call.GenerateNewPublicDashboardUid ∉ (dr.SavePublicDashboardConfig w dto1).2 := by
  have hold2 : dto2.PublicDashboard.Uid ≠ "" := hUid ▸ hold
  have hcmd : updateCommand w dto2 = updateCommand w dto1 := by
    simp [updateCommand, hUid, hEnabled, hTime, hUser]
  rw [save_update dr w dto1 href1 hold, save_update dr w dto2 href2 hold2, hcmd]
  refine ⟨updateCommand w dto1, rfl, rfl, rfl, rfl, rfl, rfl, rfl, rfl, rfl, rfl, ?_, ?_⟩
  · simp
  · simp

/-- The update of `pd-1` and the same update with a forged token, dashboard and organization
hand the same command to the store. -/
theorem C11_update_command_ignores_token_dashboard_and_org_witness :
    ∃ cmd,
      (scenarioA.SavePublicDashboardConfig sampleWorld updateDTO).2
        = [Call.UpdatePublicDashboardConfig cmd] ∧
      (scenarioA.SavePublicDashboardConfig sampleWorld forgedUpdateDTO).2
        = [Call.UpdatePublicDashboardConfig cmd] ∧
      cmd.PublicDashboard.Uid = updateDTO.PublicDashboard.Uid ∧
      cmd.PublicDashboard.IsEnabled = updateDTO.PublicDashboard.IsEnabled ∧
      cmd.PublicDashboard.TimeSettings = updateDTO.PublicDashboard.TimeSettings ∧
      cmd.PublicDashboard.UpdatedBy = updateDTO.UserId ∧
      cmd.PublicDashboard.UpdatedAt = sampleWorld.now ∧
      cmd.PublicDashboard.AccessToken = "" ∧
      cmd.PublicDashboard.DashboardUid = "" ∧
      cmd.DashboardUid = "" ∧
      Call.NewV4 ∉ (scenarioA.SavePublicDashboardConfig sampleWorld updateDTO).2 ∧
      Call.GenerateNewPublicDashboardUid
        ∉ (scenarioA.SavePublicDashboardConfig sampleWorld updateDTO).2 :=
  C11_update_command_ignores_token_dashboard_and_org scenarioA sampleWorld updateDTO
    forgedUpdateDTO (by decide) (by decide) (by decide) rfl rfl rfl rfl

/-- C12: on the create path of `SavePublicDashboardConfig` (non-empty dashboard uid, empty
config uid, uid generation and token generation succeed), the row handed to the store insert
has the generated uid, the freshly generated, non-empty token, the input's dashboard uid and
organization, the input config's `IsEnabled` and `TimeSettings`, and the input's user id as
creator; a second input that differs only in the config's own access token, creator, updater
and timestamps (and dashboard uid and organization) hands the same row to the store. -/
theorem C12_created_row_is_system_assigned (dr : DashboardServiceImpl) (w : World)
    (dto1 dto2 : SavePublicDashboardConfigDTO) (uid : String) (u : UUID)
    (href : dto1.DashboardUid ≠ "") (hnew1 : dto1.PublicDashboard.Uid = "")
    (hnew2 : dto2.PublicDashboard.Uid = "")
    (huid : dr.dashboardStore.GenerateNewPublicDashboardUid = (uid, none))
    (hrand : w.rand 0 = (u, none))
    (hRef : dto1.DashboardUid = dto2.DashboardUid) (hOrg : dto1.OrgId = dto2.OrgId)
    (hUser : dto1.UserId = dto2.UserId)
    (hEnabled : dto1.PublicDashboard.IsEnabled = dto2.PublicDashboard.IsEnabled)
    (hTime : dto1.PublicDashboard.TimeSettings = dto2.PublicDashboard.TimeSettings) :
    ∃ cmd,
      (dr.SavePublicDashboardConfig w dto1).2
        = [Call.GenerateNewPublicDashboardUid, Call.NewV4,
           Call.SavePublicDashboardConfig cmd] ∧
      (dr.SavePublicDashboardConfig w dto2).2 = (dr.SavePublicDashboardConfig w dto1).2 ∧
      cmd.PublicDashboard.Uid = uid ∧
      cmd.PublicDashboard.AccessToken = (GenerateAccessToken w.rand).1.1 ∧
      cmd.PublicDashboard.AccessToken ≠ "" ∧
      cmd.PublicDashboard.DashboardUid = dto1.DashboardUid ∧
      cmd.PublicDashboard.OrgId = dto1.OrgId ∧
      cmd.PublicDashboard.IsEnabled = dto1.PublicDashboard.IsEnabled ∧
      cmd.PublicDashboard.TimeSettings = dto1.PublicDashboard.TimeSettings ∧
      cmd.PublicDashboard.CreatedBy = dto1.UserId ∧
      cmd.PublicDashboard.CreatedAt = w.now ∧
      cmd.PublicDashboard.UpdatedBy = 0 ∧
      cmd.PublicDashboard.UpdatedAt = 0 := by
  have href2 : dto2.DashboardUid ≠ "" := hRef ▸ href
  rw [save_create dr w dto1 uid u href hnew1 huid hrand,
    save_create dr w dto2 uid u href2 hnew2 huid hrand,
    generateAccessToken_of_uuid w.rand u hrand]
  refine ⟨_, rfl, ?_, rfl, rfl, hex_ne_empty u, rfl, rfl, rfl, rfl, rfl, rfl, rfl, rfl⟩
  simp [hRef, hOrg, hUser, hEnabled, hTime]

/-- The create request that carries a token, creator and timestamps of the caller gives the
same row as the plain one. -/
theorem C12_created_row_is_system_assigned_witness :
    ∃ cmd,
      (scenarioA.SavePublicDashboardConfig sampleWorld createDTO).2
        = [Call.GenerateNewPublicDashboardUid, Call.NewV4,
           Call.SavePublicDashboardConfig cmd] ∧
      (scenarioA.SavePublicDashboardConfig sampleWorld plainCreateDTO).2
        = (scenarioA.SavePublicDashboardConfig sampleWorld createDTO).2 ∧
      cmd.PublicDashboard.Uid = "pd-2" ∧
      cmd.PublicDashboard.AccessToken = (GenerateAccessToken sampleWorld.rand).1.1 ∧
      cmd.PublicDashboard.AccessToken ≠ "" ∧
      cmd.PublicDashboard.DashboardUid = createDTO.DashboardUid ∧
      cmd.PublicDashboard.OrgId = createDTO.OrgId ∧
      cmd.PublicDashboard.IsEnabled = createDTO.PublicDashboard.IsEnabled ∧
      cmd.PublicDashboard.TimeSettings = createDTO.PublicDashboard.TimeSettings ∧
      cmd.PublicDashboard.CreatedBy = createDTO.UserId ∧
      cmd.PublicDashboard.CreatedAt = sampleWorld.now ∧
      cmd.PublicDashboard.UpdatedBy = 0 ∧
      cmd.PublicDashboard.UpdatedAt = 0 :=
  C12_created_row_is_system_assigned scenarioA sampleWorld createDTO plainCreateDTO "pd-2"
    sampleUUID (by decide) rfl rfl rfl rfl rfl rfl rfl rfl rfl

/-- C13: for every input whose `DashboardUid` is empty, whatever the config uid is,
`SavePublicDashboardConfig` returns no config and `ErrDashboardIdentifierNotSet`, and makes no
call to the store or to the token generator. -/
theorem C13_empty_dashboard_uid_fails_before_any_call (dr : DashboardServiceImpl) (w : World)
    (dto : SavePublicDashboardConfigDTO) (href : dto.DashboardUid = "") :
    dr.SavePublicDashboardConfig w dto
      = ((none, some Error.ErrDashboardIdentifierNotSet), []) := by
  simp [DashboardServiceImpl.SavePublicDashboardConfig, href]

/-- An update request without dashboard uid is refused before any call. -/
theorem C13_empty_dashboard_uid_fails_before_any_call_witness :
    scenarioA.SavePublicDashboardConfig sampleWorld { updateDTO with DashboardUid := "" }
      = ((none, some Error.ErrDashboardIdentifierNotSet), []) :=
  C13_empty_dashboard_uid_fails_before_any_call scenarioA sampleWorld
    { updateDTO with DashboardUid := "" } rfl

/-- C14, as stated, fails. With a random source that fails once and would answer on the next
call, the save fails after a single call to it and without any insert, although the next
attempt succeeds. With a store that refuses the first token as a duplicate and a random source
whose next token is free, the save returns the refusal after a single insert. -/
theorem C14_failed_attempt_is_not_retried :
    (scenarioA.SavePublicDashboardConfig flakyWorld.afterOneDraw createDTO).1.2 = none ∧
    scenarioA.SavePublicDashboardConfig flakyWorld createDTO
      = ((none, some (Error.other "entropy unavailable")),
         [Call.GenerateNewPublicDashboardUid, Call.NewV4]) ∧
    (duplicateTokenService.SavePublicDashboardConfig twoTokenWorld.afterOneDraw createDTO).1.2
      = none ∧
    (duplicateTokenService.SavePublicDashboardConfig twoTokenWorld createDTO).1
      = (none, some (Error.other "UNIQUE constraint failed: access_token")) ∧
    (duplicateTokenService.SavePublicDashboardConfig twoTokenWorld createDTO).2.count Call.NewV4
      = 1 := by
  decide

/-- C14, amended: on the create path of `SavePublicDashboardConfig`, once the uid is generated,
nothing is retried. The random source is called exactly once; when it fails, its error is
returned at once and nothing is inserted; when it answers, the store insert is called exactly
once with the token of that answer, and the result of that insert, failure included, is the
result of the save. -/
theorem C14_create_path_makes_a_single_attempt (dr : DashboardServiceImpl) (w : World)
    (dto : SavePublicDashboardConfigDTO) (uid : String)
    (href : dto.DashboardUid ≠ "") (hnew : dto.PublicDashboard.Uid = "")
    (huid : dr.dashboardStore.GenerateNewPublicDashboardUid = (uid, none)) :
    (dr.SavePublicDashboardConfig w dto).2.count Call.NewV4 = 1 ∧
    (∀ e, (w.rand 0).2 = some e →
      dr.SavePublicDashboardConfig w dto
        = ((none, some e), [Call.GenerateNewPublicDashboardUid, Call.NewV4])) ∧
    ((w.rand 0).2 = none →
      ∃ cmd, cmd.PublicDashboard.AccessToken = (w.rand 0).1.hex ∧
        dr.SavePublicDashboardConfig w dto
          = (dr.dashboardStore.SavePublicDashboardConfig cmd,
             [Call.GenerateNewPublicDashboardUid, Call.NewV4,
              Call.SavePublicDashboardConfig cmd])) := by
  rcases hrand : w.rand 0 with ⟨u, err⟩
  cases err with
  | some e =>
    rw [save_create_token_error dr w dto uid u e href hnew huid hrand]
    refine ⟨by simp [List.count_cons], ?_, ?_⟩
    · intro e2 he2
      simp at he2
      rw [he2]
    · intro h
      simp at h
  | none =>
    rw [save_create dr w dto uid u href hnew huid hrand]
    refine ⟨?_, ?_, ?_⟩
    · simp [List.count_cons]
    · intro e he
      simp at he
    · intro _
      exact ⟨_, rfl, rfl⟩

/-- The failing random source is asked once, and its error is the result. -/
theorem C14_create_path_makes_a_single_attempt_witness :
    (scenarioA.SavePublicDashboardConfig flakyWorld createDTO).2.count Call.NewV4 = 1 ∧
    scenarioA.SavePublicDashboardConfig flakyWorld createDTO
      = ((none, some (Error.other "entropy unavailable")),
         [Call.GenerateNewPublicDashboardUid, Call.NewV4]) :=
  have h := C14_create_path_makes_a_single_attempt scenarioA flakyWorld createDTO "pd-2"
    (by decide) rfl rfl
  ⟨h.1, h.2.1 (Error.other "entropy unavailable") rfl⟩

theorem save_empty_ref (dr : DashboardServiceImpl) (w : World)
    (dto : SavePublicDashboardConfigDTO) (href : dto.DashboardUid = "") :
    dr.SavePublicDashboardConfig w dto
      = ((none, some Error.ErrDashboardIdentifierNotSet), []) := by
  simp [DashboardServiceImpl.SavePublicDashboardConfig, href]

/-- Whenever the save hands a command to the store, to insert or to update, the result of the
save is the result of that store call. -/
theorem save_returns_store_result (dr : DashboardServiceImpl) (w : World)
    (dto : SavePublicDashboardConfigDTO) (cmd : SavePublicDashboardConfigCommand) :
    (Call.SavePublicDashboardConfig cmd ∈ (dr.SavePublicDashboardConfig w dto).2 →
      (dr.SavePublicDashboardConfig w dto).1
        = dr.dashboardStore.SavePublicDashboardConfig cmd) ∧
    (Call.UpdatePublicDashboardConfig cmd ∈ (dr.SavePublicDashboardConfig w dto).2 →
      (dr.SavePublicDashboardConfig w dto).1
        = dr.dashboardStore.UpdatePublicDashboardConfig cmd) := by
  by_cases href : dto.DashboardUid = ""
  · rw [save_empty_ref dr w dto href]
    simp
  · by_cases hnew : dto.PublicDashboard.Uid = ""
    · rcases huid : dr.dashboardStore.GenerateNewPublicDashboardUid with ⟨uid, err⟩
      cases err with
      | some e =>
        rw [save_create_uid_error dr w dto uid e href hnew huid]
        simp
      | none =>
        rcases hrand : w.rand 0 with ⟨u, err2⟩
        cases err2 with
        | some e =>
          rw [save_create_token_error dr w dto uid u e href hnew huid hrand]
          simp
        | none =>
          rw [save_create dr w dto uid u href hnew huid hrand]
          constructor
          · intro h
            simp at h
            rw [h]
          · intro h
            simp at h
    · rw [save_update dr w dto href hnew]
      constructor
      · intro h
        simp at h
      · intro h
        simp at h
        rw [h]

/-- C15: every result of a storage call is returned unchanged by the operation that made the
call. A lookup error is the error of `GetPublicDashboard` and of
`BuildPublicDashboardMetricRequest`, whatever config and dashboard come with it. On the create
path a uid-generation error is returned and nothing is inserted; once the uid and the token are
generated, the store insert is called and its `(config, error)` result is the result of
`SavePublicDashboardConfig`. On the update path the store update is called and its result is
the result of the save. In general, whenever a command is handed to the store insert or update,
the save returns exactly the result of that call. -/
theorem C15_storage_results_are_returned_unchanged (G : Json → GoMap Int (List Json))
    (dr : DashboardServiceImpl) (w : World) (dto : SavePublicDashboardConfigDTO)
    (token : String) (panelId : Int) :
    (∀ pd d e, dr.dashboardStore.GetPublicDashboard token = (pd, d, some e) →
      dr.GetPublicDashboard token = (none, some e) ∧
      (dr.BuildPublicDashboardMetricRequest G token panelId).2.2 = some e) ∧
    (∀ uid e, dto.DashboardUid ≠ "" → dto.PublicDashboard.Uid = "" →
      dr.dashboardStore.GenerateNewPublicDashboardUid = (uid, some e) →
      dr.SavePublicDashboardConfig w dto
        = ((none, some e), [Call.GenerateNewPublicDashboardUid])) ∧
    (∀ uid, dto.DashboardUid ≠ "" → dto.PublicDashboard.Uid = "" →
      dr.dashboardStore.GenerateNewPublicDashboardUid = (uid, none) →
      (w.rand 0).2 = none →
      ∃ cmd,
        (dr.SavePublicDashboardConfig w dto).2
          = [Call.GenerateNewPublicDashboardUid, Call.NewV4,
             Call.SavePublicDashboardConfig cmd] ∧
        (dr.SavePublicDashboardConfig w dto).1
          = dr.dashboardStore.SavePublicDashboardConfig cmd) ∧
    (dto.DashboardUid ≠ "" → dto.PublicDashboard.Uid ≠ "" →
      (dr.SavePublicDashboardConfig w dto).2
        = [Call.UpdatePublicDashboardConfig (updateCommand w dto)] ∧
      (dr.SavePublicDashboardConfig w dto).1
        = dr.dashboardStore.UpdatePublicDashboardConfig (updateCommand w dto)) ∧
    (∀ cmd, Call.SavePublicDashboardConfig cmd ∈ (dr.SavePublicDashboardConfig w dto).2 →
      (dr.SavePublicDashboardConfig w dto).1
        = dr.dashboardStore.SavePublicDashboardConfig cmd) ∧
    (∀ cmd, Call.UpdatePublicDashboardConfig cmd ∈ (dr.SavePublicDashboardConfig w dto).2 →
      (dr.SavePublicDashboardConfig w dto).1
        = dr.dashboardStore.UpdatePublicDashboardConfig cmd) := by
  refine ⟨?_, ?_, ?_, ?_, ?_, ?_⟩
  · intro pd d e hrow
    rw [getPublicDashboard_of_error dr token pd d e hrow,
      build_of_error G dr token panelId pd d e hrow]
    exact ⟨rfl, rfl⟩
  · intro uid e href hnew huid
    exact save_create_uid_error dr w dto uid e href hnew huid
  · intro uid href hnew huid hrand
    rcases hdraw : w.rand 0 with ⟨u, err⟩
    rw [hdraw] at hrand
    simp only at hrand
    subst hrand
    rw [save_create dr w dto uid u href hnew huid hdraw]
    exact ⟨_, rfl, rfl⟩
  · intro href hold
    rw [save_update dr w dto href hold]
    exact ⟨rfl, rfl⟩
  · intro cmd
    exact (save_returns_store_result dr w dto cmd).1
  · intro cmd
    exact (save_returns_store_result dr w dto cmd).2

/-- A lookup failure, a uid-generation failure, a refused insert and a refused update each come
back as they are, the insert and the update having been called. -/
theorem C15_storage_results_are_returned_unchanged_witness :
    scenarioDown.GetPublicDashboard "tok" = (none, some (Error.other "database is locked")) ∧
    (scenarioDown.BuildPublicDashboardMetricRequest samplePanelQueries "tok" 7).2.2
      = some (Error.other "database is locked") ∧
    noUidService.SavePublicDashboardConfig sampleWorld createDTO
      = ((none, some (Error.other "failed to generate uid")),
         [Call.GenerateNewPublicDashboardUid]) ∧
    (∃ cmd,
      (duplicateTokenService.SavePublicDashboardConfig twoTokenWorld createDTO).2
        = [Call.GenerateNewPublicDashboardUid, Call.NewV4,
           Call.SavePublicDashboardConfig cmd] ∧
      (duplicateTokenService.SavePublicDashboardConfig twoTokenWorld createDTO).1
        = duplicateTokenService.dashboardStore.SavePublicDashboardConfig cmd) ∧
    (duplicateTokenService.SavePublicDashboardConfig twoTokenWorld createDTO).1
      = (none, some (Error.other "UNIQUE constraint failed: access_token")) ∧
    (staleUpdateService.SavePublicDashboardConfig sampleWorld updateDTO).2
      = [Call.UpdatePublicDashboardConfig (updateCommand sampleWorld updateDTO)] ∧
    (staleUpdateService.SavePublicDashboardConfig sampleWorld updateDTO).1
      = staleUpdateService.dashboardStore.UpdatePublicDashboardConfig
          (updateCommand sampleWorld updateDTO) ∧
    (staleUpdateService.SavePublicDashboardConfig sampleWorld updateDTO).1
      = (none, some (Error.other "no row was updated")) :=
  have hdown := (C15_storage_results_are_returned_unchanged samplePanelQueries scenarioDown
    sampleWorld createDTO "tok" 7).1 none none (Error.other "database is locked") rfl
  have hnouid := (C15_storage_results_are_returned_unchanged samplePanelQueries noUidService
    sampleWorld createDTO "tok" 7).2.1 "" (Error.other "failed to generate uid")
    (by decide) rfl rfl
  have hinsert := (C15_storage_results_are_returned_unchanged samplePanelQueries
    duplicateTokenService twoTokenWorld createDTO "tok" 7).2.2.1 "pd-2" (by decide) rfl rfl rfl
  have hupdate := (C15_storage_results_are_returned_unchanged samplePanelQueries
    staleUpdateService sampleWorld updateDTO "tok" 7).2.2.2.1 (by decide) (by decide)
  ⟨hdown.1, hdown.2, hnouid, hinsert, by decide, hupdate.1, hupdate.2, by decide⟩

/-! ## Order independence of the scope (C16) -/

theorem hexDigit_mem : ∀ n, n < 16 → hexDigit n ∈ "0123456789abcdef".data := by decide

theorem hexDigit_injective : ∀ a, a < 16 → ∀ b, b < 16 → hexDigit a = hexDigit b → a = b := by
  decide

theorem hexByte_injective (a b : Fin 256) (h : hexByte a = hexByte b) : a = b := by
  simp only [hexByte, List.cons.injEq, and_true] at h
  have hhigh := hexDigit_injective (a.val / 16) (by omega) (b.val / 16) (by omega) h.1
  have hlow := hexDigit_injective (a.val % 16) (Nat.mod_lt _ (by decide)) (b.val % 16)
    (Nat.mod_lt _ (by decide)) h.2
  apply Fin.ext
  omega

theorem flatten_hexByte_injective (l1 l2 : List (Fin 256))
    (h : (l1.map hexByte).flatten = (l2.map hexByte).flatten) : l1 = l2 := by
  induction l1 generalizing l2 with
  | nil =>
    cases l2 with
    | nil => rfl
    | cons b rest => simp [hexByte] at h
  | cons a more ih =>
    cases l2 with
    | nil => simp [hexByte] at h
    | cons b rest =>
      simp only [List.map_cons, List.flatten_cons, hexByte, List.cons_append,
        List.nil_append, List.cons.injEq] at h
      obtain ⟨h1, h2, h3⟩ := h
      have hab : a = b := hexByte_injective a b (by simp [hexByte, h1, h2])
      rw [hab, ih rest h3]

/-- Distinct UUIDs have distinct tokens. -/
theorem hex_injective (u1 u2 : UUID) (h : u1.hex = u2.hex) : u1 = u2 := by
  have hdata : (u1.bytes.map hexByte).flatten = (u2.bytes.map hexByte).flatten :=
    congrArg String.data h
  have hbytes := flatten_hexByte_injective u1.bytes u2.bytes hdata
  cases u1
  cases u2
  simp only at hbytes
  subst hbytes
  rfl

theorem hex_digits (u : UUID) : ∀ c ∈ u.hex.data, c ∈ "0123456789abcdef".data := by
  intro c hc
  simp only [UUID.hex, List.mem_flatten, List.mem_map] at hc
  obtain ⟨l, ⟨b, _, rfl⟩, hcl⟩ := hc
  simp only [hexByte, List.mem_cons, List.mem_singleton, List.not_mem_nil, or_false] at hcl
  rcases hcl with rfl | rfl
  · exact hexDigit_mem _ (by omega)
  · exact hexDigit_mem _ (Nat.mod_lt _ (by decide))

/-- C17: when the random source answers a UUID, `GenerateAccessToken` returns, with the nil
error, the hexadecimal digits of its sixteen bytes: a string of length 32 made only of the
characters `0123456789abcdef` (so without dashes); two sources that answer distinct UUIDs give
distinct tokens; when the random source fails, the result is the empty string and that
error. -/
theorem C17_access_token_is_thirty_two_hex_digits (rand rand2 : RandomSource) (u u2 : UUID)
    (e : Error) :
    (rand 0 = (u, none) →
      (GenerateAccessToken rand).1 = (u.hex, none) ∧
      u.hex = String.mk (u.bytes.map hexByte).flatten ∧
      u.hex.length = 32 ∧
      ∀ c ∈ u.hex.data, c ∈ "0123456789abcdef".data) ∧
    (rand 0 = (u, none) → rand2 0 = (u2, none) → u ≠ u2 →
      (GenerateAccessToken rand).1.1 ≠ (GenerateAccessToken rand2).1.1) ∧
    (rand 0 = (u, some e) → (GenerateAccessToken rand).1 = ("", some e)) := by
  refine ⟨?_, ?_, ?_⟩
  · intro hrand
    exact ⟨generateAccessToken_of_uuid rand u hrand, rfl, hex_length u, hex_digits u⟩
  · intro hrand hrand2 hne
    rw [generateAccessToken_of_uuid rand u hrand, generateAccessToken_of_uuid rand2 u2 hrand2]
    exact fun h => hne (hex_injective u u2 h)
  · intro hrand
    exact generateAccessToken_of_error rand u e hrand

/-- The token of `sampleUUID`, the distinct token of `otherUUID`, and the failing source. -/
theorem C17_access_token_is_thirty_two_hex_digits_witness :
    (GenerateAccessToken sampleWorld.rand).1 = ("1f8b0800a3c94e5d9b7f0123456789ab", none) ∧
    (GenerateAccessToken sampleWorld.rand).1.1
      ≠ (GenerateAccessToken twoTokenWorld.afterOneDraw.rand).1.1 ∧
    (GenerateAccessToken flakyWorld.rand).1 = ("", some (Error.other "entropy unavailable")) :=
  have h := C17_access_token_is_thirty_two_hex_digits sampleWorld.rand
    twoTokenWorld.afterOneDraw.rand sampleUUID otherUUID (Error.other "entropy unavailable")
  have hflaky := C17_access_token_is_thirty_two_hex_digits flakyWorld.rand sampleWorld.rand
    nilUUID sampleUUID (Error.other "entropy unavailable")
  ⟨(h.1 rfl).1, h.2.1 rfl rfl (by decide), hflaky.2.2 rfl⟩

/-! ## The dashboard returned to the public viewer (C18) -/

theorem lookup_assign_same {K V : Type} [DecidableEq K] (m : GoMap K V) (k : K) (v : V) :
    GoMap.lookup (GoMap.assign m k v) k = some v := by
  induction m with
  | nil => simp [GoMap.assign, GoMap.lookup]
  | cons e rest ih =>
    obtain ⟨k2, v2⟩ := e
    by_cases h : k2 = k
    · simp [GoMap.assign, GoMap.lookup, h]
    · simp [GoMap.assign, GoMap.lookup, h, ih]

theorem lookup_assign_other {K V : Type} [DecidableEq K] (m : GoMap K V) (k k2 : K) (v : V)
    (hne : k2 ≠ k) : GoMap.lookup (GoMap.assign m k v) k2 = GoMap.lookup m k2 := by
  induction m with
  | nil =>
    have h : ¬ k = k2 := fun e => hne e.symm
    simp [GoMap.assign, GoMap.lookup, h]
  | cons e rest ih =>
    obtain ⟨k3, v3⟩ := e
    by_cases h : k3 = k
    · have h2 : ¬ k = k2 := fun e => hne e.symm
      have h3 : ¬ k3 = k2 := fun e => hne (e.symm.trans h)
      simp [GoMap.assign, GoMap.lookup, h, h2]
    · by_cases h4 : k3 = k2
      · subst h4
        simp [GoMap.assign, GoMap.lookup, h]
      · simp [GoMap.assign, GoMap.lookup, h, h4, ih]

/-- Reading a key of any document is reading it in the object the document holds. -/
theorem get_eq_lookup_asMap (j : Json) (k : String) :
    j.Get k = (match GoMap.lookup j.asMap k with
      | some v => v
      | none => Json.null) := by
  cases j <;> simp [Json.Get, Json.asMap, GoMap.empty, GoMap.lookup]

theorem get_obj_assign_same (m : GoMap String Json) (k : String) (v : Json) :
    (Json.obj (GoMap.assign m k v)).Get k = v := by
  simp [Json.Get, lookup_assign_same]

theorem get_obj_assign_other (j : Json) (k k2 : String) (v : Json) (hne : k2 ≠ k) :
    (Json.obj (GoMap.assign j.asMap k v)).Get k2 = j.Get k2 := by
  rw [get_eq_lookup_asMap j k2]
  simp [Json.Get, lookup_assign_other _ _ _ _ hne]

/-- Writing at a path of two keys: the value is there, and nothing else moved. -/
theorem setPath_two (j : Json) (a b : String) (v : Json) :
    ((j.SetPath [a, b] v).Get a).Get b = v ∧
    (∀ k, k ≠ a → (j.SetPath [a, b] v).Get k = j.Get k) ∧
    (∀ k, k ≠ b → ((j.SetPath [a, b] v).Get a).Get k = (j.Get a).Get k) := by
  have hchild : ∀ k, k ≠ b →
      (Json.obj (GoMap.assign (match GoMap.lookup j.asMap a with
        | some c => c
        | none => Json.obj GoMap.empty).asMap b v)).Get k = (j.Get a).Get k := by
    intro k hk
    rw [get_obj_assign_other _ b k v hk, get_eq_lookup_asMap j a]
    cases GoMap.lookup j.asMap a with
    | some c => rfl
    | none => simp [Json.Get, GoMap.empty, GoMap.lookup]
  refine ⟨?_, ?_, ?_⟩
  · simp [Json.SetPath, get_obj_assign_same]
  · intro k hk
    simp only [Json.SetPath]
    exact get_obj_assign_other j a k _ hk
  · intro k hk
    simp only [Json.SetPath, get_obj_assign_same]
    exact hchild k hk

theorem getPublicDashboard_of_enabled (dr : DashboardServiceImpl) (token : String)
    (pd : PublicDashboard) (d : Dashboard)
    (hrow : dr.dashboardStore.GetPublicDashboard token = (some pd, some d, none))
    (hen : pd.IsEnabled = true) :
    dr.GetPublicDashboard token
      = (some { OrgId := d.OrgId,
                Data := (d.Data.SetPath ["time", "from"]
                    (Json.str (pd.BuildTimeSettings d).From)).SetPath ["time", "to"]
                  (Json.str (pd.BuildTimeSettings d).To) },
         none) := by
  simp [DashboardServiceImpl.GetPublicDashboard, hrow, hen]

/-- C18: when the token resolves to a present, enabled config and a present dashboard,
`GetPublicDashboard` returns that dashboard (same organization) whose document reads, at
`time.from` and `time.to`, the window `BuildTimeSettings` computes, every other key of the
document and every other key under `time` reading as before; and a successful
`BuildPublicDashboardMetricRequest` for the same token carries the same window. Neither
operation has a time range among its arguments. -/
theorem C18_public_dashboard_carries_the_resolved_window (G : Json → GoMap Int (List Json))
    (dr : DashboardServiceImpl) (token : String) (panelId : Int)
    (pd : PublicDashboard) (d : Dashboard)
    (hrow : dr.dashboardStore.GetPublicDashboard token = (some pd, some d, none))
    (hen : pd.IsEnabled = true) :
    ∃ d2, dr.GetPublicDashboard token = (some d2, none) ∧
      d2.OrgId = d.OrgId ∧
      d2.Data.GetPath ["time", "from"] = Json.str (pd.BuildTimeSettings d).From ∧
      d2.Data.GetPath ["time", "to"] = Json.str (pd.BuildTimeSettings d).To ∧
      (∀ k, k ≠ "time" → d2.Data.Get k = d.Data.Get k) ∧
      (∀ k, k ≠ "from" → k ≠ "to" → (d2.Data.Get "time").Get k = (d.Data.Get "time").Get k) ∧
      ((dr.BuildPublicDashboardMetricRequest G token panelId).2.2 = none →
        Json.str (dr.BuildPublicDashboardMetricRequest G token panelId).1.From
          = d2.Data.GetPath ["time", "from"] ∧
        Json.str (dr.BuildPublicDashboardMetricRequest G token panelId).1.To
          = d2.Data.GetPath ["time", "to"]) := by
  rw [getPublicDashboard_of_enabled dr token pd d hrow hen]
  obtain ⟨hfrom1, hfrom2, hfrom3⟩ := setPath_two d.Data "time" "from"
    (Json.str (pd.BuildTimeSettings d).From)
  obtain ⟨hto1, hto2, hto3⟩ := setPath_two
    (d.Data.SetPath ["time", "from"] (Json.str (pd.BuildTimeSettings d).From)) "time" "to"
    (Json.str (pd.BuildTimeSettings d).To)
  have hreadFrom : ((d.Data.SetPath ["time", "from"]
      (Json.str (pd.BuildTimeSettings d).From)).SetPath ["time", "to"]
      (Json.str (pd.BuildTimeSettings d).To)).GetPath ["time", "from"]
      = Json.str (pd.BuildTimeSettings d).From := by
    simp only [Json.GetPath, List.foldl]
    rw [hto3 "from" (by decide), hfrom1]
  have hreadTo : ((d.Data.SetPath ["time", "from"]
      (Json.str (pd.BuildTimeSettings d).From)).SetPath ["time", "to"]
      (Json.str (pd.BuildTimeSettings d).To)).GetPath ["time", "to"]
      = Json.str (pd.BuildTimeSettings d).To := by
    simp only [Json.GetPath, List.foldl]
    exact hto1
  refine ⟨_, rfl, rfl, hreadFrom, hreadTo, ?_, ?_, ?_⟩
  · intro k hk
    rw [hto2 k hk, hfrom2 k hk]
  · intro k hk1 hk2
    rw [hto3 k hk2, hfrom3 k hk1]
  · intro hok
    obtain ⟨_, queries, hpanel⟩ := build_success_inv G dr token panelId pd d hrow hok
    rw [hreadFrom, hreadTo, build_of_panel G dr token panelId pd d queries hrow hen hpanel]
    exact ⟨rfl, rfl⟩

/-- Scenario A: the viewer gets the dashboard with the window `now-6h .. now`, its title
untouched, and the metric request of panel 7 has the same window. -/
theorem C18_public_dashboard_carries_the_resolved_window_witness :
    ∃ d2, scenarioA.GetPublicDashboard "tok" = (some d2, none) ∧
      d2.Data.GetPath ["time", "from"] = Json.str "now-6h" ∧
      d2.Data.GetPath ["time", "to"] = Json.str "now" ∧
      d2.Data.Get "title" = Json.str "cpu" ∧
      Json.str (scenarioA.BuildPublicDashboardMetricRequest samplePanelQueries "tok" 7).1.From
        = d2.Data.GetPath ["time", "from"] :=
  have ⟨d2, h1, _, h3, h4, h5, _, h7⟩ :=
    C18_public_dashboard_carries_the_resolved_window samplePanelQueries scenarioA "tok" 7
      (sampleConfig true (some { From := "now-6h", To := "now" }))
      (sampleDashboard [(7, [sampleQuery "A" "ds-A", sampleQuery "B" "ds-B"])]) rfl rfl
  ⟨d2, h1, h3, h4, (h5 "title" (by decide)).trans rfl, (h7 rfl).1⟩

/-! ## The plugin store (C19, C20) -/

namespace PluginStore

section Facts

variable {P D R : Type} (pkg : PluginsPkg P D R)

theorem foldl_keep (keep : P → Bool) (ps acc : List P) :
    ps.foldl (fun res p => if keep p then res ++ [p] else res) acc
      = acc ++ ps.filter keep := by
  induction ps generalizing acc with
  | nil => simp
  | cons p rest ih =>
    by_cases h : keep p
    · simp [List.foldl, ih, h, List.filter_cons]
    · simp [List.foldl, ih, h, List.filter_cons]

/-- The available plugins are the registry's plugins that are not decommissioned, in registry
order. -/
theorem availablePlugins_eq_filter (s : Service P) :
    s.availablePlugins pkg
      = s.pluginRegistry.Plugins.filter (fun p => !pkg.IsDecommissioned p) :=
  (foldl_keep (fun p => !pkg.IsDecommissioned p) s.pluginRegistry.Plugins []).trans
    (List.nil_append _)

theorem foldl_keep_map {A B : Type} (keep : A → Bool) (f : A → B) (ps : List A)
    (acc : List B) :
    ps.foldl (fun out p => if keep p then out ++ [f p] else out) acc
      = acc ++ (ps.filter keep).map f := by
  induction ps generalizing acc with
  | nil => simp
  | cons p rest ih =>
    by_cases h : keep p
    · simp [List.foldl, ih, h, List.filter_cons]
    · simp [List.foldl, ih, h, List.filter_cons]

theorem foldl_collect {A B : Type} (pick : A → Option B) (ps : List A) (acc : List B) :
    ps.foldl (fun out p =>
        match pick p with
        | some x => out ++ [x]
        | none => out) acc
      = acc ++ ps.filterMap pick := by
  induction ps generalizing acc with
  | nil => simp
  | cons p rest ih =>
    cases h : pick p with
    | none => simp [List.foldl, ih, h, List.filterMap_cons]
    | some x => simp [List.foldl, ih, h, List.filterMap_cons]

theorem lookup_assign_unit (m : GoMap String Unit) (k k2 : String) :
    GoMap.lookup (GoMap.assign m k ()) k2 = some () ↔ k2 = k ∨ GoMap.lookup m k2 = some () := by
  by_cases h : k2 = k
  · subst h
    simp [lookup_assign_same]
  · simp [lookup_assign_other m k k2 () h, h]

/-- The set `requestedTypes` holds exactly the types of the list it is built from. -/
theorem requestedTypes_lookup (types : List String) (m : GoMap String Unit) (k : String) :
    GoMap.lookup (types.foldl (fun m pt => GoMap.assign m pt ()) m) k = some ()
      ↔ k ∈ types ∨ GoMap.lookup m k = some () := by
  induction types generalizing m with
  | nil => simp
  | cons t rest ih =>
    simp only [List.foldl, ih, lookup_assign_unit, List.mem_cons]
    tauto

theorem requestedTypes_isSome (types : List String) (k : String) :
    (GoMap.lookup (types.foldl (fun m pt => GoMap.assign m pt ()) GoMap.empty) k).isSome
      = decide (k ∈ types) := by
  have h := requestedTypes_lookup types GoMap.empty k
  by_cases hmem : k ∈ types
  · rw [h.mpr (Or.inl hmem)]
    simp [hmem]
  · cases hl : GoMap.lookup (types.foldl (fun m pt => GoMap.assign m pt ()) GoMap.empty) k with
    | none => simp [hmem]
    | some x =>
      have h2 := h.mp hl
      simp [hmem, GoMap.empty, GoMap.lookup] at h2

/-- With a non-empty list of types, `Plugins` keeps the registry's plugins that are not
decommissioned and whose type is in the list, in registry order, and maps them to DTOs. -/
theorem plugins_of_types (s : Service P) (types : List String) (hne : types ≠ []) :
    s.Plugins pkg types
      = ((s.pluginRegistry.Plugins.filter
          (fun p => !pkg.IsDecommissioned p && decide (pkg.TypeOf p ∈ types))).map
          pkg.ToDTO) := by
  have hlen : ¬ types.length = 0 := fun h => hne (List.length_eq_zero.mp h)
  unfold Service.Plugins
  simp only [hlen, if_false]
  refine (foldl_keep_map
    (fun p => (GoMap.lookup (types.foldl (fun m pt => GoMap.assign m pt ()) GoMap.empty)
      (pkg.TypeOf p)).isSome) pkg.ToDTO (s.availablePlugins pkg) []).trans ?_
  rw [availablePlugins_eq_filter, List.nil_append, List.filter_filter]
  congr 1
  apply List.filter_congr
  intro p _
  rw [requestedTypes_isSome, Bool.and_comm]

theorem routes_eq_filterMap (s : Service P) :
    s.Routes pkg
      = (s.pluginRegistry.Plugins.filter (fun p => !pkg.IsDecommissioned p)).filterMap
          pkg.StaticRoute := by
  rw [← availablePlugins_eq_filter]
  exact (foldl_collect pkg.StaticRoute (s.availablePlugins pkg) []).trans (List.nil_append _)

theorem firstWhere_some (test : P → Bool) (ps : List P) (p : P)
    (h : firstWhere test ps = some p) : p ∈ ps ∧ test p = true := by
  induction ps with
  | nil => simp [firstWhere] at h
  | cons q rest ih =>
    by_cases hq : test q = true
    · simp only [firstWhere, hq, if_true, Option.some.injEq] at h
      subst h
      exact ⟨by simp, hq⟩
    · simp only [firstWhere, hq] at h
      obtain ⟨h1, h2⟩ := ih h
      exact ⟨by simp [h1], h2⟩

/-- C19: for every registry content and every non-empty list of requested types, `Plugins`
returns the DTOs of exactly the registry's plugins that are not decommissioned and whose type
is in the list, in registry order and once per registry entry; with no type passed the result
is the result of passing `plugins.PluginTypes`. -/
theorem C19_plugins_filters_by_type_and_availability (s : Service P) (types : List String) :
    (types ≠ [] →
      s.Plugins pkg types
        = ((s.pluginRegistry.Plugins.filter
            (fun p => !pkg.IsDecommissioned p && decide (pkg.TypeOf p ∈ types))).map
            pkg.ToDTO)) ∧
    s.Plugins pkg [] = s.Plugins pkg pkg.PluginTypes := by
  refine ⟨plugins_of_types pkg s types, ?_⟩
  by_cases hall : pkg.PluginTypes = []
  · rw [hall]
  · have hlen : ¬ pkg.PluginTypes.length = 0 := fun h => hall (List.length_eq_zero.mp h)
    simp [Service.Plugins, hlen]

/-- Renderers and panels of the sample registry; no type means every type. -/
theorem C19_plugins_filters_by_type_and_availability_witness :
    sampleStore.Plugins samplePkg ["renderer", "panel", "panel"]
      = ((samplePlugins.filter
          (fun p => !p.decommissioned && decide (p.kind ∈ ["renderer", "panel", "panel"]))).map
          (fun p => p.ID)) ∧
    sampleStore.Plugins samplePkg ["renderer", "panel", "panel"]
      = ["image-renderer", "piechart"] ∧
    sampleStore.Plugins samplePkg [] = sampleStore.Plugins samplePkg samplePkg.PluginTypes :=
  have h := C19_plugins_filters_by_type_and_availability samplePkg sampleStore
    ["renderer", "panel", "panel"]
  ⟨h.1 (by decide), by decide, h.2⟩

/-- C20: `Plugin` returns the DTO of the registry's plugin and `true` exactly when the registry
has a plugin with that id and it is not decommissioned, and the zero DTO and `false` otherwise.
`Renderer` and `SecretsManager` return only plugins of the registry that are not
decommissioned, and every route `Routes` returns is the static route of a plugin of the
registry that is not decommissioned. -/
theorem C20_store_never_returns_a_decommissioned_plugin (s : Service P) (pluginID : String) :
    (∀ p, s.pluginRegistry.Plugin pluginID = some p → pkg.IsDecommissioned p = false →
      s.Plugin pkg pluginID = (pkg.ToDTO p, true)) ∧
    ((s.Plugin pkg pluginID).2 = true ↔
      ∃ p, s.pluginRegistry.Plugin pluginID = some p ∧ pkg.IsDecommissioned p = false) ∧
    ((s.Plugin pkg pluginID).2 = false → s.Plugin pkg pluginID = (pkg.zeroDTO, false)) ∧
    (∀ p, s.Renderer pkg = some p →
      p ∈ s.pluginRegistry.Plugins ∧ pkg.IsDecommissioned p = false) ∧
    (∀ p, s.SecretsManager pkg = some p →
      p ∈ s.pluginRegistry.Plugins ∧ pkg.IsDecommissioned p = false) ∧
    (∀ r ∈ s.Routes pkg, ∃ p ∈ s.pluginRegistry.Plugins,
      pkg.IsDecommissioned p = false ∧ pkg.StaticRoute p = some r) := by
  have havail : ∀ p, p ∈ s.availablePlugins pkg →
      p ∈ s.pluginRegistry.Plugins ∧ pkg.IsDecommissioned p = false := by
    intro p hp
    rw [availablePlugins_eq_filter] at hp
    simpa using hp
  refine ⟨?_, ?_, ?_, ?_, ?_, ?_⟩
  · intro p hp hd
    simp [Service.Plugin, Service.plugin, hp, hd]
  · cases hp : s.pluginRegistry.Plugin pluginID with
    | none => simp [Service.Plugin, Service.plugin, hp]
    | some p =>
      cases hd : pkg.IsDecommissioned p <;> simp [Service.Plugin, Service.plugin, hp, hd]
  · cases hp : s.pluginRegistry.Plugin pluginID with
    | none => simp [Service.Plugin, Service.plugin, hp]
    | some p =>
      cases hd : pkg.IsDecommissioned p <;> simp [Service.Plugin, Service.plugin, hp, hd]
  · intro p hp
    exact havail p (firstWhere_some pkg.IsRenderer _ p hp).1
  · intro p hp
    exact havail p (firstWhere_some pkg.IsSecretsManager _ p hp).1
  · intro r hr
    rw [routes_eq_filterMap] at hr
    obtain ⟨p, hp, hroute⟩ := List.mem_filterMap.mp hr
    have hp2 : p ∈ s.pluginRegistry.Plugins ∧ pkg.IsDecommissioned p = false := by
      simpa using hp
    exact ⟨p, hp2.1, hp2.2, hroute⟩

/-- In the sample registry `prometheus` is served, the decommissioned `loki` is not, and the
renderer served is `image-renderer`, not the decommissioned `old-renderer` listed before it. -/
theorem C20_store_never_returns_a_decommissioned_plugin_witness :
    sampleStore.Plugin samplePkg "prometheus" = ("prometheus", true) ∧
    sampleStore.Plugin samplePkg "loki" = ("", false) ∧
    (sampleStore.Renderer samplePkg).map (fun p => p.ID) = some "image-renderer" ∧
    sampleStore.Routes samplePkg
      = ["public/plugins/image-renderer", "public/plugins/piechart"] :=
  ⟨(C20_store_never_returns_a_decommissioned_plugin samplePkg sampleStore "prometheus").1
      { ID := "prometheus", kind := "datasource", decommissioned := false, core := true }
      rfl rfl,
    (C20_store_never_returns_a_decommissioned_plugin samplePkg sampleStore "loki").2.2.1
      (by decide),
    by decide, by decide⟩

end Facts

end PluginStore

end Grafana
